import Mathlib

/-!
Verification development for the Phase 3 USDJPY trading system
(`phase3_usdjpy_optimized.py`).  The pandas/numpy pipeline is shallowly
embedded: a float cell is a `PVal` (finite rational, NaN, or ±∞, mirroring
IEEE semantics with numpy warnings suppressed), a pandas `Series` is a
`List PVal`, and each method of `Phase3USDJPYSystem` becomes a Lean
function of the same name.  All arithmetic is exact rational arithmetic;
the only place the float world is not exactly representable is `sqrt`,
which this embedding defines only on perfect squares (see `PVal.sqrt`) —
every square root evaluated by the theorems below is of a zero variance.
-/

/-- One cell of a pandas float Series: a finite value, NaN, or a signed
infinity (numpy produces `inf`/`-inf`/`nan` on division by zero with
warnings suppressed, as the source does via `warnings.filterwarnings`). -/
inductive PVal where
  | nan : PVal
  | inf : PVal
  | ninf : PVal
  | fin : ℚ → PVal
deriving DecidableEq, Repr

instance : Inhabited PVal := ⟨PVal.nan⟩

/-- IEEE `<` on embedded floats: any comparison with NaN is false. -/
def PVal.lt : PVal → PVal → Bool
  | .nan, _ => false
  | _, .nan => false
  | .fin a, .fin b => decide (a < b)
  | .ninf, .ninf => false
  | .ninf, _ => true
  | _, .ninf => false
  | .inf, _ => false
  | .fin _, .inf => true

/-- IEEE `≤` on embedded floats: any comparison with NaN is false. -/
def PVal.le : PVal → PVal → Bool
  | .nan, _ => false
  | _, .nan => false
  | .fin a, .fin b => decide (a ≤ b)
  | .ninf, _ => true
  | _, .ninf => false
  | .inf, .inf => true
  | .fin _, .inf => true
  | .inf, .fin _ => false

/-- IEEE `>` on embedded floats. -/
def PVal.gt (a b : PVal) : Bool := PVal.lt b a

/-- IEEE `≥` on embedded floats. -/
def PVal.ge (a b : PVal) : Bool := PVal.le b a

/-- IEEE addition on embedded floats. -/
def PVal.add : PVal → PVal → PVal
  | .nan, _ => .nan
  | _, .nan => .nan
  | .inf, .ninf => .nan
  | .ninf, .inf => .nan
  | .inf, _ => .inf
  | _, .inf => .inf
  | .ninf, _ => .ninf
  | _, .ninf => .ninf
  | .fin a, .fin b => .fin (a + b)

/-- IEEE negation on embedded floats. -/
def PVal.neg : PVal → PVal
  | .nan => .nan
  | .inf => .ninf
  | .ninf => .inf
  | .fin a => .fin (-a)

/-- IEEE subtraction on embedded floats. -/
def PVal.sub (a b : PVal) : PVal := PVal.add a (PVal.neg b)

/-- IEEE multiplication on embedded floats (`∞ · 0 = NaN`). -/
def PVal.mul : PVal → PVal → PVal
  | .nan, _ => .nan
  | _, .nan => .nan
  | .fin a, .fin b => .fin (a * b)
  | .inf, .inf => .inf
  | .inf, .ninf => .ninf
  | .ninf, .inf => .ninf
  | .ninf, .ninf => .inf
  | .inf, .fin b => if b = 0 then .nan else if 0 < b then .inf else .ninf
  | .fin a, .inf => if a = 0 then .nan else if 0 < a then .inf else .ninf
  | .ninf, .fin b => if b = 0 then .nan else if 0 < b then .ninf else .inf
  | .fin a, .ninf => if a = 0 then .nan else if 0 < a then .ninf else .inf

/-- IEEE division on embedded floats: `0/0 = NaN`, `x/0 = ±∞` for `x ≠ 0`
(numpy semantics with warnings suppressed), `x/±∞ = 0`, `±∞/±∞ = NaN`. -/
def PVal.div : PVal → PVal → PVal
  | .nan, _ => .nan
  | _, .nan => .nan
  | .fin a, .fin b =>
    if b = 0 then (if a = 0 then .nan else if 0 < a then .inf else .ninf)
    else .fin (a / b)
  | .inf, .inf => .nan
  | .inf, .ninf => .nan
  | .ninf, .inf => .nan
  | .ninf, .ninf => .nan
  | .fin _, .inf => .fin 0
  | .fin _, .ninf => .fin 0
  | .inf, .fin b => if 0 ≤ b then .inf else .ninf
  | .ninf, .fin b => if 0 ≤ b then .ninf else .inf

/-- IEEE absolute value on embedded floats. -/
def PVal.abs : PVal → PVal
  | .nan => .nan
  | .inf => .inf
  | .ninf => .inf
  | .fin a => .fin |a|

/-- Structurally recursive integer square root (kernel-evaluable, unlike
the well-founded `Nat.sqrt`): the largest `r ≤ fuel` with `r * r ≤ n`. -/
def natSqrtAux (n : ℕ) : ℕ → ℕ
  | 0 => 0
  | r + 1 => if (r + 1) * (r + 1) ≤ n then r + 1 else natSqrtAux n r

/-- Structurally recursive integer square root. -/
def natSqrt (n : ℕ) : ℕ := natSqrtAux n n

/-- Exact rational square root, when it exists. -/
def ratSqrt? (q : ℚ) : Option ℚ :=
  let a := natSqrt q.num.natAbs
  let b := natSqrt q.den
  if a * a = q.num.natAbs ∧ b * b = q.den then some ((a : ℚ) / (b : ℚ)) else none

/-- Square root on embedded floats.  The development keeps exact rational
arithmetic, so the root is returned only when it is itself rational; every
square root a theorem below evaluates is of a perfect square (the sample
variance of a flat window is zero, whose root is exactly zero).  An
irrational root is left undefined (`nan`). -/
def PVal.sqrt : PVal → PVal
  | .nan => .nan
  | .inf => .inf
  | .ninf => .nan
  | .fin q =>
    if q < 0 then .nan
    else match ratSqrt? q with
      | some r => .fin r
      | none => .nan

/-- Row-wise maximum with NaN skipped (pandas `DataFrame.max(axis=1)`
default `skipna=True`); the maximum of two NaNs is NaN. -/
def PVal.maxSkipNan : PVal → PVal → PVal
  | .nan, b => b
  | a, .nan => a
  | a, b => if PVal.le a b then b else a

/-- Minimum with NaN skipped (pandas `min`/`Series.min` semantics). -/
def PVal.minSkipNan : PVal → PVal → PVal
  | .nan, b => b
  | a, .nan => a
  | a, b => if PVal.le a b then a else b

/-- One input price bar.  Only the fields the analysis pipeline reads are
kept: the timestamp contributes only its hour (`data['Hour']`), plus the
OHLC prices; volume is never read by the analyzed code. -/
structure Bar where
  hour : ℕ
  open_ : ℚ
  high : ℚ
  low : ℚ
  close : ℚ
deriving DecidableEq, Repr

instance : Inhabited Bar := ⟨⟨0, 0, 0, 0, 0⟩⟩

/-- The USDJPY-tuned parameter block `self.fx_params`. -/
structure FxParams where
  macd_fast : ℕ
  macd_slow : ℕ
  macd_signal : ℕ
  bb_period : ℕ
  bb_std : ℚ
  rsi_period : ℕ
  atr_period : ℕ
  spread_cost : ℚ

/-- `self.fx_params` as set in `Phase3USDJPYSystem.__init__`. -/
def fx_params : FxParams :=
  { macd_fast := 8, macd_slow := 21, macd_signal := 5, bb_period := 15,
    bb_std := 1.8, rsi_period := 10, atr_period := 10, spread_cost := 0.002 }

/-- `data['Tokyo_Session']` flag of `_add_usdjpy_features`. -/
def Tokyo_Session (hour : ℕ) : Bool := decide (0 ≤ hour) && decide (hour < 9)

/-- `data['London_Session']` flag of `_add_usdjpy_features`. -/
def London_Session (hour : ℕ) : Bool := decide (8 ≤ hour) && decide (hour < 17)

/-- `data['NY_Session']` flag of `_add_usdjpy_features`. -/
def NY_Session (hour : ℕ) : Bool := decide (13 ≤ hour) && decide (hour < 22)

/-- `data['Overlap_Session']` flag of `_add_usdjpy_features`. -/
def Overlap_Session (hour : ℕ) : Bool := decide (13 ≤ hour) && decide (hour < 17)

/-- `_identify_trading_session`: priority-ordered test of the session
flags of the given row, first match wins. -/
def identify_trading_session (hour : ℕ) : String :=
  if Tokyo_Session hour then "Tokyo"
  else if Overlap_Session hour then "Overlap"
  else if London_Session hour then "London"
  else if NY_Session hour then "NY"
  else "Quiet"

/-- `_get_session_multiplier`: the dictionary lookup with default 1.0. -/
def get_session_multiplier (session : String) : ℚ :=
  if session = "Overlap" then 1.3
  else if session = "London" then 1.2
  else if session = "NY" then 1.1
  else if session = "Tokyo" then 1.0
  else if session = "Quiet" then 0.7
  else 1.0

/-- The window a pandas `rolling(window=w)` aggregation sees at index `i`:
the `w` entries ending at `i` (fewer near the head of the series). -/
def rwindow (w : ℕ) (s : List PVal) (i : ℕ) : List PVal :=
  (s.drop (i + 1 - w)).take w

/-- Does a window contain a NaN?  With pandas' default
`min_periods = window`, any NaN inside a full window makes the
aggregate NaN (the non-NaN observation count falls below `window`). -/
def hasNan (l : List PVal) : Bool := l.any (fun v => v = PVal.nan)

/-- Sum of a list of embedded floats. -/
def psum (l : List PVal) : PVal := l.foldl PVal.add (.fin 0)

/-- `Series.rolling(window=w).mean()` at index `i` (default
`min_periods = w`): NaN before a full window exists or when the window
contains a NaN, else the window mean. -/
def rolling_mean (w : ℕ) (s : List PVal) (i : ℕ) : PVal :=
  if i + 1 < w ∨ s.length ≤ i then .nan
  else if hasNan (rwindow w s i) then .nan
  else PVal.div (psum (rwindow w s i)) (.fin (w : ℚ))

/-- `Series.rolling(window=w).std()` at index `i`, squared: the sample
variance (pandas default `ddof = 1`) of the window. -/
def rolling_var (w : ℕ) (s : List PVal) (i : ℕ) : PVal :=
  if i + 1 < w ∨ s.length ≤ i then .nan
  else if hasNan (rwindow w s i) then .nan
  else
    let xs := rwindow w s i
    let m := PVal.div (psum xs) (.fin (w : ℚ))
    PVal.div (psum (xs.map (fun x => PVal.mul (PVal.sub x m) (PVal.sub x m))))
      (.fin ((w - 1 : ℕ) : ℚ))

/-- `Series.rolling(window=w).std()` at index `i`. -/
def rolling_std (w : ℕ) (s : List PVal) (i : ℕ) : PVal :=
  PVal.sqrt (rolling_var w s i)

/-- `Series.ewm(span=span).mean()` at index `i` (pandas defaults
`adjust=True`, `min_periods=0`): the weighted average
`Σ (1-α)^k x_{i-k} / Σ (1-α)^k` with `α = 2/(span+1)`.  Used only on
fully finite series (`Close` and MACD), hence over `ℚ`. -/
def ewm_mean (span : ℕ) (xs : List ℚ) (i : ℕ) : ℚ :=
  let α : ℚ := 2 / ((span : ℚ) + 1)
  (∑ k ∈ Finset.range (i + 1), (1 - α) ^ k * xs.getD (i - k) 0) /
    (∑ k ∈ Finset.range (i + 1), (1 - α) ^ k)

/-- The indicator dictionary built by `calculate_fx_optimized_indicators`,
one bar-aligned series per key. -/
structure IndicatorSet where
  MACD : List PVal
  MACD_Signal : List PVal
  MACD_Histogram : List PVal
  BB_Upper : List PVal
  BB_Middle : List PVal
  BB_Lower : List PVal
  BB_Width : List PVal
  BB_Position : List PVal
  RSI : List PVal
  ATR : List PVal
  ATR_Pct : List PVal
  EMA_5 : List PVal
  EMA_13 : List PVal
  EMA_34 : List PVal
  Price_Change_3 : List PVal
  Price_Change_5 : List PVal
  Volatility_10 : List PVal

/-- `data['Daily_Range_Pct']` from `_add_usdjpy_features`:
`(High - Low) / Close * 100`. -/
def Daily_Range_Pct (bars : List Bar) : List PVal :=
  (List.range bars.length).map (fun i =>
    PVal.mul
      (PVal.div (.fin ((bars.getD i default).high - (bars.getD i default).low))
        (.fin (bars.getD i default).close))
      (.fin 100))

/-- `close.pct_change(k)` at index `i`. -/
def pct_change (k : ℕ) (close : List ℚ) (i : ℕ) : PVal :=
  if i < k then .nan
  else PVal.sub (PVal.div (.fin (close.getD i 0)) (.fin (close.getD (i - k) 0))) (.fin 1)

/-- The `Close` column. -/
def close_series (bars : List Bar) : List ℚ := bars.map Bar.close

/-- `indicators['MACD'] = ema(C, fast) - ema(C, slow)`. -/
def MACD_series (bars : List Bar) : List ℚ :=
  (List.range bars.length).map (fun i =>
    ewm_mean fx_params.macd_fast (close_series bars) i -
      ewm_mean fx_params.macd_slow (close_series bars) i)

/-- `indicators['MACD_Signal'] = MACD.ewm(span=5).mean()`. -/
def MACD_Signal_series (bars : List Bar) : List ℚ :=
  (List.range bars.length).map (fun i =>
    ewm_mean fx_params.macd_signal (MACD_series bars) i)

/-- `indicators['MACD_Histogram'] = MACD - MACD_Signal`. -/
def MACD_Histogram_series (bars : List Bar) : List ℚ :=
  (List.range bars.length).map (fun i =>
    (MACD_series bars).getD i 0 - (MACD_Signal_series bars).getD i 0)

/-- `sma_bb = close.rolling(window=15).mean()` (`indicators['BB_Middle']`). -/
def sma_bb_series (bars : List Bar) : List PVal :=
  (List.range bars.length).map (fun i =>
    rolling_mean fx_params.bb_period ((close_series bars).map PVal.fin) i)

/-- `std_bb = close.rolling(window=15).std()`. -/
def std_bb_series (bars : List Bar) : List PVal :=
  (List.range bars.length).map (fun i =>
    rolling_std fx_params.bb_period ((close_series bars).map PVal.fin) i)

/-- `indicators['BB_Upper'] = sma_bb + std_bb * 1.8`. -/
def BB_Upper_series (bars : List Bar) : List PVal :=
  (List.range bars.length).map (fun i =>
    PVal.add ((sma_bb_series bars).getD i .nan)
      (PVal.mul ((std_bb_series bars).getD i .nan) (.fin fx_params.bb_std)))

/-- `indicators['BB_Lower'] = sma_bb - std_bb * 1.8`. -/
def BB_Lower_series (bars : List Bar) : List PVal :=
  (List.range bars.length).map (fun i =>
    PVal.sub ((sma_bb_series bars).getD i .nan)
      (PVal.mul ((std_bb_series bars).getD i .nan) (.fin fx_params.bb_std)))

/-- `indicators['BB_Width'] = BB_Upper - BB_Lower`. -/
def BB_Width_series (bars : List Bar) : List PVal :=
  (List.range bars.length).map (fun i =>
    PVal.sub ((BB_Upper_series bars).getD i .nan) ((BB_Lower_series bars).getD i .nan))

/-- `indicators['BB_Position'] = (close - BB_Lower) / BB_Width` — no
guard of any kind around the division. -/
def BB_Position_series (bars : List Bar) : List PVal :=
  (List.range bars.length).map (fun i =>
    PVal.div (PVal.sub (.fin ((close_series bars).getD i 0)) ((BB_Lower_series bars).getD i .nan))
      ((BB_Width_series bars).getD i .nan))

/-- `delta = close.diff()`. -/
def delta_series (bars : List Bar) : List PVal :=
  (List.range bars.length).map (fun i =>
    if i = 0 then .nan
    else .fin ((close_series bars).getD i 0 - (close_series bars).getD (i - 1) 0))

/-- `delta.where(delta > 0, 0)` (the NaN head fails the test and becomes 0). -/
def gain_src_series (bars : List Bar) : List PVal :=
  (delta_series bars).map (fun d => if PVal.gt d (.fin 0) then d else .fin 0)

/-- `-delta.where(delta < 0, 0)`. -/
def loss_src_series (bars : List Bar) : List PVal :=
  (delta_series bars).map (fun d => if PVal.lt d (.fin 0) then PVal.neg d else .fin 0)

/-- `gain = (delta.where(delta > 0, 0)).rolling(window=10).mean()`. -/
def gain_series (bars : List Bar) : List PVal :=
  (List.range bars.length).map (fun i =>
    rolling_mean fx_params.rsi_period (gain_src_series bars) i)

/-- `loss = (-delta.where(delta < 0, 0)).rolling(window=10).mean()`. -/
def loss_series (bars : List Bar) : List PVal :=
  (List.range bars.length).map (fun i =>
    rolling_mean fx_params.rsi_period (loss_src_series bars) i)

/-- `indicators['RSI'] = 100 - 100 / (1 + gain/loss)`. -/
def RSI_series (bars : List Bar) : List PVal :=
  (List.range bars.length).map (fun i =>
    PVal.sub (.fin 100) (PVal.div (.fin 100)
      (PVal.add (.fin 1)
        (PVal.div ((gain_series bars).getD i .nan) ((loss_series bars).getD i .nan)))))

/-- `true_range = concat([H-L, |H-C.shift(1)|, |L-C.shift(1)|]).max(axis=1)`
(row-wise max skips NaN, so at row 0 only `H-L` contributes). -/
def true_range_series (bars : List Bar) : List PVal :=
  (List.range bars.length).map (fun i =>
    let tr1 : PVal := .fin ((bars.getD i default).high - (bars.getD i default).low)
    let tr2 : PVal := if i = 0 then .nan
      else .fin |(bars.getD i default).high - (close_series bars).getD (i - 1) 0|
    let tr3 : PVal := if i = 0 then .nan
      else .fin |(bars.getD i default).low - (close_series bars).getD (i - 1) 0|
    PVal.maxSkipNan (PVal.maxSkipNan tr1 tr2) tr3)

/-- `indicators['ATR'] = true_range.rolling(window=10).mean()`. -/
def ATR_series (bars : List Bar) : List PVal :=
  (List.range bars.length).map (fun i =>
    rolling_mean fx_params.atr_period (true_range_series bars) i)

/-- `indicators['ATR_Pct'] = ATR / close * 100`. -/
def ATR_Pct_series (bars : List Bar) : List PVal :=
  (List.range bars.length).map (fun i =>
    PVal.mul (PVal.div ((ATR_series bars).getD i .nan) (.fin ((close_series bars).getD i 0)))
      (.fin 100))

/-- `indicators['Volatility_10'] = close.rolling(10).std() / close.rolling(10).mean()`. -/
def Volatility_10_series (bars : List Bar) : List PVal :=
  (List.range bars.length).map (fun i =>
    PVal.div (rolling_std 10 ((close_series bars).map PVal.fin) i)
      (rolling_mean 10 ((close_series bars).map PVal.fin) i))

/-- `calculate_fx_optimized_indicators`: the indicator dictionary, one
entry per key of the source, assembled from the series above plus the
three EMAs and the 3- and 5-bar momentum columns. -/
def calculate_fx_optimized_indicators (bars : List Bar) : IndicatorSet :=
  { MACD := (MACD_series bars).map PVal.fin
    MACD_Signal := (MACD_Signal_series bars).map PVal.fin
    MACD_Histogram := (MACD_Histogram_series bars).map PVal.fin
    BB_Upper := BB_Upper_series bars
    BB_Middle := sma_bb_series bars
    BB_Lower := BB_Lower_series bars
    BB_Width := BB_Width_series bars
    BB_Position := BB_Position_series bars
    RSI := RSI_series bars
    ATR := ATR_series bars
    ATR_Pct := ATR_Pct_series bars
    EMA_5 := (List.range bars.length).map (fun i => .fin (ewm_mean 5 (close_series bars) i))
    EMA_13 := (List.range bars.length).map (fun i => .fin (ewm_mean 13 (close_series bars) i))
    EMA_34 := (List.range bars.length).map (fun i => .fin (ewm_mean 34 (close_series bars) i))
    Price_Change_3 := (List.range bars.length).map (pct_change 3 (close_series bars))
    Price_Change_5 := (List.range bars.length).map (pct_change 5 (close_series bars))
    Volatility_10 := Volatility_10_series bars }

/-- Output of one `_analyze_fx_*` sub-analysis: the accumulated score and
the contributing tags (the source's `signals` list). -/
structure SubScore where
  score : ℚ
  signals : List String
deriving DecidableEq, Repr

/-- `_analyze_fx_momentum`: MACD-vs-signal branch (strong when the
histogram widens in the trend direction) plus the EMA stack check
(`ema5 > ema13 > ema34` is Python's chained comparison). -/
def analyze_fx_momentum (indicators : IndicatorSet) (i : ℕ) : SubScore :=
  let macd_i := indicators.MACD.getD i .nan
  let sig_i := indicators.MACD_Signal.getD i .nan
  let hist_i := indicators.MACD_Histogram.getD i .nan
  let hist_p := indicators.MACD_Histogram.getD (i - 1) .nan
  let s1 : SubScore :=
    if PVal.gt macd_i sig_i then
      if PVal.gt hist_i hist_p then ⟨2, ["macd_strong_bull"]⟩ else ⟨1, ["macd_bull"]⟩
    else
      if PVal.lt hist_i hist_p then ⟨-2, ["macd_strong_bear"]⟩ else ⟨-1, ["macd_bear"]⟩
  let ema5 := indicators.EMA_5.getD i .nan
  let ema13 := indicators.EMA_13.getD i .nan
  let ema34 := indicators.EMA_34.getD i .nan
  if PVal.gt ema5 ema13 && PVal.gt ema13 ema34 then
    ⟨s1.score + 1, s1.signals ++ ["ema_bullish"]⟩
  else if PVal.lt ema5 ema13 && PVal.lt ema13 ema34 then
    ⟨s1.score - 1, s1.signals ++ ["ema_bearish"]⟩
  else s1

/-- `_analyze_fx_mean_reversion`: the RSI `if/elif` chain followed by the
Bollinger-position `if/elif` chain; the two chains accumulate into one
score, and within each chain at most one branch fires. -/
def analyze_fx_mean_reversion (indicators : IndicatorSet) (i : ℕ) : SubScore :=
  let rsi := indicators.RSI.getD i .nan
  let bb_pos := indicators.BB_Position.getD i .nan
  let s1 : SubScore :=
    if PVal.lt rsi (.fin 25) then ⟨2, ["rsi_oversold"]⟩
    else if PVal.gt rsi (.fin 75) then ⟨-2, ["rsi_overbought"]⟩
    else if PVal.le (.fin 40) rsi && PVal.le rsi (.fin 60) then ⟨0.5, ["rsi_neutral"]⟩
    else ⟨0, []⟩
  let s2 : SubScore :=
    if PVal.lt bb_pos (.fin 0.05) then ⟨2, ["bb_extreme_oversold"]⟩
    else if PVal.gt bb_pos (.fin 0.95) then ⟨-2, ["bb_extreme_overbought"]⟩
    else if PVal.lt bb_pos (.fin 0.2) then ⟨1, ["bb_oversold"]⟩
    else if PVal.gt bb_pos (.fin 0.8) then ⟨-1, ["bb_overbought"]⟩
    else ⟨0, []⟩
  ⟨s1.score + s2.score, s1.signals ++ s2.signals⟩

/-- `_analyze_fx_breakout`: ATR%-expansion gate over the 3-bar momentum,
plus the daily-range gate over the 5-bar momentum (whose inner branch is a
plain `if/else`: a non-positive or NaN 5-bar change scores −0.5 once the
gate is passed). -/
def analyze_fx_breakout (bars : List Bar) (indicators : IndicatorSet) (i : ℕ) : SubScore :=
  let atr_pct := indicators.ATR_Pct.getD i .nan
  let atr_avg := rolling_mean 20 indicators.ATR_Pct i
  let price_change_3 := indicators.Price_Change_3.getD i .nan
  let price_change_5 := indicators.Price_Change_5.getD i .nan
  let s1 : SubScore :=
    if PVal.gt atr_pct (PVal.mul atr_avg (.fin 1.2)) then
      if PVal.gt price_change_3 (.fin 0.005) then ⟨1, ["upward_breakout"]⟩
      else if PVal.lt price_change_3 (.fin (-0.005)) then ⟨-1, ["downward_breakout"]⟩
      else ⟨0, []⟩
    else ⟨0, []⟩
  let drp := Daily_Range_Pct bars
  let daily_range_pct := drp.getD i .nan
  let range_avg := rolling_mean 20 drp i
  let s2 : SubScore :=
    if PVal.gt daily_range_pct (PVal.mul range_avg (.fin 1.3)) then
      if PVal.gt price_change_5 (.fin 0) then ⟨0.5, ["range_break_up"]⟩
      else ⟨-0.5, ["range_break_down"]⟩
    else ⟨0, []⟩
  ⟨s1.score + s2.score, s1.signals ++ s2.signals⟩

/-- `_analyze_fx_risk`: volatility-stability band plus the session
activity bonus. -/
def analyze_fx_risk (bars : List Bar) (indicators : IndicatorSet) (i : ℕ) : SubScore :=
  let volatility := indicators.Volatility_10.getD i .nan
  let vol_avg := rolling_mean 50 indicators.Volatility_10 i
  let s1 : SubScore :=
    if PVal.le volatility (PVal.mul vol_avg (.fin 1.1)) then ⟨1, ["stable_market"]⟩
    else if PVal.ge volatility (PVal.mul vol_avg (.fin 1.5)) then ⟨-1, ["volatile_market"]⟩
    else ⟨0, []⟩
  let session := identify_trading_session (bars.getD i default).hour
  let s2 : SubScore :=
    if session = "Overlap" ∨ session = "London" then ⟨0.5, ["active_session"]⟩
    else if session = "Quiet" then ⟨-0.5, ["quiet_session"]⟩
    else ⟨0, []⟩
  ⟨s1.score + s2.score, s1.signals ++ s2.signals⟩

/-- One trading decision as returned by `_make_fx_decision`. -/
structure Decision where
  signal : ℤ
  position : ℚ
  confidence : ℚ
  strategy : String
deriving DecidableEq, Repr

/-- `_make_fx_decision`: fuse the four sub-scores with the session
multiplier (risk unweighted) and threshold the final score. -/
def make_fx_decision (momentum mean_reversion breakout risk : SubScore)
    (session_multiplier : ℚ) : Decision :=
  let momentum_score := momentum.score
  let reversion_score := mean_reversion.score
  let breakout_score := breakout.score
  let risk_score := risk.score
  let trend_score := momentum_score + breakout_score
  let counter_score := reversion_score
  let total_trend := trend_score * session_multiplier
  let total_counter := counter_score * session_multiplier
  let total_risk := risk_score
  let final_score := total_trend + total_counter + total_risk
  let all_signals := momentum.signals ++ mean_reversion.signals ++
    breakout.signals ++ risk.signals
  let strong_threshold : ℚ := 2.5
  let moderate_threshold : ℚ := 1.5
  if final_score ≥ strong_threshold then
    { signal := 1, position := 1, confidence := min (final_score / 4) 1,
      strategy := "FX_BUY: " ++ String.intercalate ", " (all_signals.take 3) }
  else if final_score ≤ -strong_threshold then
    { signal := -1, position := -1, confidence := min (|final_score| / 4) 1,
      strategy := "FX_SELL: " ++ String.intercalate ", " (all_signals.take 3) }
  else if final_score ≥ moderate_threshold then
    { signal := 1, position := 0.5, confidence := final_score / 4,
      strategy := "FX_WEAK_BUY: " ++ String.intercalate ", " (all_signals.take 2) }
  else if final_score ≤ -moderate_threshold then
    { signal := -1, position := -0.5, confidence := |final_score| / 4,
      strategy := "FX_WEAK_SELL: " ++ String.intercalate ", " (all_signals.take 2) }
  else
    { signal := 0, position := 0, confidence := 0,
      strategy := "FX_HOLD: Mixed signals" }

/-- One row of the `signals` DataFrame built by `generate_fx_signals`. -/
structure SignalRow where
  Price : ℚ
  Signal : ℤ
  Position : ℚ
  Confidence : ℚ
  FX_Strategy : String
  Session : String
deriving DecidableEq, Repr

instance : Inhabited SignalRow := ⟨⟨0, 0, 0, 0, "", ""⟩⟩

/-- `generate_fx_signals`: every row starts as the zero/hold row
(`Signal = 0`, `Position = 0`, `Confidence = 0.0`, empty strategy and
session strings) and the loop `for i in range(50, len(signals))`
overwrites the rows from index 50 on with the fused decision. -/
def generate_fx_signals (bars : List Bar) (indicators : IndicatorSet) : List SignalRow :=
  (List.range bars.length).map (fun i =>
    let price := (bars.getD i default).close
    if i < 50 then
      { Price := price, Signal := 0, Position := 0, Confidence := 0,
        FX_Strategy := "", Session := "" }
    else
      let session := identify_trading_session (bars.getD i default).hour
      let fx_momentum := analyze_fx_momentum indicators i
      let fx_mean_reversion := analyze_fx_mean_reversion indicators i
      let fx_breakout := analyze_fx_breakout bars indicators i
      let fx_risk := analyze_fx_risk bars indicators i
      let session_multiplier := get_session_multiplier session
      let d := make_fx_decision fx_momentum fx_mean_reversion fx_breakout fx_risk
        session_multiplier
      { Price := price, Signal := d.signal, Position := d.position,
        Confidence := d.confidence, FX_Strategy := d.strategy, Session := session })

/-- `signals['Returns'] = signals['Price'].pct_change()` at row `t`. -/
def returns_at (rows : List SignalRow) (t : ℕ) : PVal :=
  if t = 0 ∨ rows.length ≤ t then .nan
  else PVal.sub
    (PVal.div (.fin (rows.getD t default).Price) (.fin (rows.getD (t - 1) default).Price))
    (.fin 1)

/-- `signals['Gross_Strategy_Returns'] = Position.shift(1) * Returns` at
row `t`; the shifted position is NaN at row 0, so the product is NaN. -/
def gross_at (rows : List SignalRow) (t : ℕ) : PVal :=
  if t = 0 then .nan
  else PVal.mul (.fin (rows.getD (t - 1) default).Position) (returns_at rows t)

/-- `Position.diff()` at row `t` (NaN at row 0). -/
def position_diff_at (rows : List SignalRow) (t : ℕ) : PVal :=
  if t = 0 ∨ rows.length ≤ t then .nan
  else .fin ((rows.getD t default).Position - (rows.getD (t - 1) default).Position)

/-- `signals['Trade_Cost'] = Position.diff().abs() * spread_cost` at row
`t` (the initial all-zero column is fully overwritten). -/
def trade_cost_at (rows : List SignalRow) (t : ℕ) : PVal :=
  PVal.mul (PVal.abs (position_diff_at rows t)) (.fin fx_params.spread_cost)

/-- `signals['Net_Strategy_Returns'] = Gross - Trade_Cost` at row `t`. -/
def net_at (rows : List SignalRow) (t : ℕ) : PVal :=
  PVal.sub (gross_at rows t) (trade_cost_at rows t)

/-- The `Net_Strategy_Returns` column as a list. -/
def net_list (rows : List SignalRow) : List PVal :=
  (List.range rows.length).map (net_at rows)

/-- `Series.fillna(0)`. -/
def fillna0 : PVal → PVal
  | .nan => .fin 0
  | v => v

/-- `signals['Cumulative_Returns'] = (1 + Net.fillna(0)).cumprod()`. -/
def cum_list (rows : List SignalRow) : List PVal :=
  (((net_list rows).map (fun v => PVal.add (.fin 1) (fillna0 v))).scanl PVal.mul
    (.fin 1)).drop 1

/-- The Boolean mask `Net_Strategy_Returns != 0`: in pandas `NaN != 0`
evaluates to `True`, so a NaN net return passes this filter. -/
def pval_ne_zero : PVal → Bool
  | .fin q => decide (q ≠ 0)
  | _ => true

/-- `Series.sum()` (default `skipna=True`; the sum of an all-NaN or empty
selection is 0). -/
def series_sum (l : List PVal) : PVal := psum (l.filter (fun v => v ≠ PVal.nan))

/-- `Series.mean()` (default `skipna=True`; NaN on an empty selection). -/
def series_mean (l : List PVal) : PVal :=
  let xs := l.filter (fun v => v ≠ PVal.nan)
  if xs.length = 0 then .nan else PVal.div (psum xs) (.fin (xs.length : ℚ))

/-- `Series.max()` (default `skipna=True`; NaN when nothing remains). -/
def series_max (l : List PVal) : PVal := l.foldl PVal.maxSkipNan .nan

/-- `Series.min()` (default `skipna=True`; NaN when nothing remains). -/
def series_min (l : List PVal) : PVal := l.foldl PVal.minSkipNan .nan

/-- `Series.std()` (defaults `skipna=True`, `ddof=1`; NaN when fewer than
two observations remain). -/
def series_std (l : List PVal) : PVal :=
  let xs := l.filter (fun v => v ≠ PVal.nan)
  if xs.length ≤ 1 then .nan
  else
    let m := PVal.div (psum xs) (.fin (xs.length : ℚ))
    PVal.sqrt (PVal.div (psum (xs.map (fun x => PVal.mul (PVal.sub x m) (PVal.sub x m))))
      (.fin ((xs.length - 1 : ℕ) : ℚ)))

/-- `_calculate_max_drawdown`: running maximum of cumulative returns,
relative drawdown, minimum times 100. -/
def calculate_max_drawdown (cumulative_returns : List PVal) : PVal :=
  let rolling_max := (cumulative_returns.scanl PVal.maxSkipNan .nan).drop 1
  let drawdown := List.zipWith (fun c m => PVal.div (PVal.sub c m) m)
    cumulative_returns rolling_max
  PVal.mul (series_min drawdown) (.fin 100)

/-- `_calculate_sharpe_ratio`: 0 when the standard deviation is exactly 0,
else annualized mean over standard deviation. -/
def calculate_sharpe_ratio (returns : List PVal) : PVal :=
  if series_std returns = .fin 0 then .fin 0
  else PVal.mul (PVal.div (series_mean returns) (series_std returns))
    (PVal.sqrt (.fin 252))

/-- The metrics dictionary returned by `calculate_fx_performance`. -/
structure FxMetrics where
  Total_Return : PVal
  Gross_Return : PVal
  Trading_Costs : PVal
  Win_Rate : ℚ
  Total_Trades : ℕ
  Profitable_Trades : ℕ
  Losing_Trades : ℕ
  Avg_Win : PVal
  Avg_Loss : PVal
  Best_Trade : PVal
  Worst_Trade : PVal
  Profit_Factor : PVal
  Max_Drawdown : PVal
  Sharpe_Ratio : PVal
  Final_Portfolio_Value : PVal
deriving DecidableEq, Repr

/-- `_empty_fx_metrics`: the all-zero metrics block (profit factor 0,
final portfolio value 1.0). -/
def empty_fx_metrics : FxMetrics :=
  { Total_Return := .fin 0, Gross_Return := .fin 0, Trading_Costs := .fin 0,
    Win_Rate := 0, Total_Trades := 0, Profitable_Trades := 0, Losing_Trades := 0,
    Avg_Win := .fin 0, Avg_Loss := .fin 0, Best_Trade := .fin 0, Worst_Trade := .fin 0,
    Profit_Factor := .fin 0, Max_Drawdown := .fin 0, Sharpe_Ratio := .fin 0,
    Final_Portfolio_Value := .fin 1 }

/-- `calculate_fx_performance`: net returns after spread costs, the
`Net != 0` activity filter (through which a NaN passes), the empty-metrics
early return, and the metrics dictionary.  `Profit_Factor` is
`float('inf')` (`PVal.inf`) when no row has a negative net return. -/
def calculate_fx_performance (rows : List SignalRow) : FxMetrics :=
  let nets := net_list rows
  let strategy_trades := nets.filter pval_ne_zero
  if strategy_trades.length = 0 then empty_fx_metrics
  else
    let win_trades := strategy_trades.filter (fun v => PVal.gt v (.fin 0))
    let lose_trades := strategy_trades.filter (fun v => PVal.lt v (.fin 0))
    let cum := cum_list rows
    let costs := (List.range rows.length).map (trade_cost_at rows)
    let grosses := (List.range rows.length).map (gross_at rows)
    { Total_Return := PVal.mul (PVal.sub (cum.getD (cum.length - 1) .nan) (.fin 1)) (.fin 100)
      Gross_Return := PVal.sub
        (PVal.mul (PVal.add (series_sum grosses) (.fin 1)) (.fin 100)) (.fin 100)
      Trading_Costs := PVal.mul (series_sum costs) (.fin 100)
      Win_Rate := ((win_trades.length : ℚ) / (strategy_trades.length : ℚ)) * 100
      Total_Trades := ((List.range rows.length).filter (fun t =>
        PVal.gt (PVal.abs (position_diff_at rows t)) (.fin 0))).length
      Profitable_Trades := win_trades.length
      Losing_Trades := lose_trades.length
      Avg_Win := if 0 < win_trades.length
        then PVal.mul (series_mean win_trades) (.fin 100) else .fin 0
      Avg_Loss := if 0 < lose_trades.length
        then PVal.mul (series_mean lose_trades) (.fin 100) else .fin 0
      Best_Trade := PVal.mul (series_max strategy_trades) (.fin 100)
      Worst_Trade := PVal.mul (series_min strategy_trades) (.fin 100)
      Profit_Factor := if 0 < lose_trades.length
        then PVal.abs (PVal.div (psum win_trades) (psum lose_trades)) else .inf
      Max_Drawdown := calculate_max_drawdown cum
      Sharpe_Ratio := calculate_sharpe_ratio nets
      Final_Portfolio_Value := cum.getD (cum.length - 1) .nan }

/-- The dictionary `run_usdjpy_analysis` returns on success (the raw data
and indicator entries are reproducible from `signals`' inputs and are
omitted here). -/
structure AnalysisResult where
  performance : FxMetrics
  signals : List SignalRow
deriving Repr

/-- `run_usdjpy_analysis`: the fetched data (`none` when the fetch itself
failed) is rejected with the insufficient-data message — modelled as
`none` — when it has fewer than 100 bars; otherwise indicators, signals
and performance are computed unconditionally. -/
def run_usdjpy_analysis (data : Option (List Bar)) : Option AnalysisResult :=
  match data with
  | none => none
  | some bars =>
    if bars.length < 100 then none
    else
      let indicators := calculate_fx_optimized_indicators bars
      let signals := generate_fx_signals bars indicators
      some { performance := calculate_fx_performance signals, signals := signals }

/-- The session bonus added by the second half of `_analyze_fx_risk`
(a proof-layer abbreviation of the source's session `if/elif`). -/
def session_bonus (session : String) : ℚ :=
  if session = "Overlap" ∨ session = "London" then 0.5
  else if session = "Quiet" then -0.5
  else 0

/-- The session classifier exactly as the spec words it (§4.3): a
priority-ordered hour-range test, first match wins, `Quiet` otherwise.
Used to compare the code's `_identify_trading_session` against the spec. -/
def spec_session_classifier (hr : ℕ) : String :=
  if 0 ≤ hr ∧ hr < 9 then "Tokyo"
  else if 13 ≤ hr ∧ hr < 17 then "Overlap"
  else if 8 ≤ hr ∧ hr < 17 then "London"
  else if 13 ≤ hr ∧ hr < 22 then "NY"
  else "Quiet"

/-- One synthetic flat bar: OHLC all 150.00, hour 0 (the spec's §8 flat
scenario bar). -/
def flat_bar_150 : Bar := { hour := 0, open_ := 150, high := 150, low := 150, close := 150 }

/-- The spec's §8 scenario input: 60 synthetic bars with close held
constant at 150.00, no noise. -/
def flat_bars_60 : List Bar := List.replicate 60 flat_bar_150

/-- A one-bar indicator table with RSI 50 (neutral) and Bollinger
position 0.03, isolating the Bollinger contribution of the
mean-reversion sub-score. -/
def mean_reversion_cex_indicators : IndicatorSet :=
  { MACD := [], MACD_Signal := [], MACD_Histogram := [], BB_Upper := [],
    BB_Middle := [], BB_Lower := [], BB_Width := [], BB_Position := [.fin 0.03],
    RSI := [.fin 50], ATR := [], ATR_Pct := [], EMA_5 := [], EMA_13 := [],
    EMA_34 := [], Price_Change_3 := [], Price_Change_5 := [],
    Volatility_10 := [] }

/-! ### List access utilities -/

theorem getD_map_range {α : Type _} (f : ℕ → α) {n i : ℕ} (h : i < n) (d : α) :
    ((List.range n).map f).getD i d = f i := by
  simp [List.getD_eq_getElem?_getD, List.getElem?_range h]

theorem getD_replicate_lt {α : Type _} {n i : ℕ} (h : i < n) (c d : α) :
    (List.replicate n c).getD i d = c := by
  simp [List.getD_eq_getElem?_getD, List.getElem?_replicate_of_lt h]

theorem map_range_eq_replicate {α : Type _} {n : ℕ} {f : ℕ → α} {c : α}
    (h : ∀ i < n, f i = c) : (List.range n).map f = List.replicate n c := by
  refine List.eq_replicate_iff.2 ⟨by simp, ?_⟩
  intro b hb
  rcases List.mem_map.1 hb with ⟨i, hi, rfl⟩
  exact h i (List.mem_range.1 hi)

theorem getD_map_fin {l : List ℚ} {i : ℕ} (h : i < l.length) :
    (l.map PVal.fin).getD i .nan = .fin (l.getD i 0) := by
  simp [List.getD_eq_getElem?_getD, List.getElem?_map, List.getElem?_eq_getElem h]

theorem getD_mem {α : Type _} [Inhabited α] {l : List α} {i : ℕ} (h : i < l.length) :
    l.getD i default ∈ l := by
  rw [List.getD_eq_getElem?_getD, List.getElem?_eq_getElem h]
  exact List.getElem_mem h

/-! ### Arithmetic facts about the embedded float domain -/

theorem PVal.add_fin (a b : ℚ) : PVal.add (.fin a) (.fin b) = .fin (a + b) := rfl

theorem PVal.sub_fin (a b : ℚ) : PVal.sub (.fin a) (.fin b) = .fin (a - b) := by
  show PVal.add _ _ = _
  rw [PVal.neg, PVal.add_fin, sub_eq_add_neg]

theorem PVal.mul_fin (a b : ℚ) : PVal.mul (.fin a) (.fin b) = .fin (a * b) := rfl

theorem PVal.div_fin {b : ℚ} (a : ℚ) (h : b ≠ 0) :
    PVal.div (.fin a) (.fin b) = .fin (a / b) := by
  simp [PVal.div, h]

theorem PVal.div_zero_zero : PVal.div (.fin 0) (.fin 0) = .nan := by
  simp [PVal.div]

theorem PVal.add_nan (v : PVal) : PVal.add v .nan = .nan := by
  cases v <;> rfl

theorem PVal.nan_add (v : PVal) : PVal.add .nan v = .nan := by
  cases v <;> rfl

theorem PVal.sub_nan (v : PVal) : PVal.sub v .nan = .nan := by
  cases v <;> rfl

theorem PVal.nan_sub (v : PVal) : PVal.sub .nan v = .nan := by
  cases v <;> rfl

theorem PVal.mul_nan (v : PVal) : PVal.mul v .nan = .nan := by
  cases v <;> rfl

theorem PVal.nan_mul (v : PVal) : PVal.mul .nan v = .nan := by
  cases v <;> rfl

theorem PVal.div_nan (v : PVal) : PVal.div v .nan = .nan := by
  cases v <;> rfl

theorem PVal.nan_div (v : PVal) : PVal.div .nan v = .nan := by
  cases v <;> rfl

theorem PVal.lt_nan (v : PVal) : PVal.lt v .nan = false := by
  cases v <;> rfl

theorem PVal.nan_lt (v : PVal) : PVal.lt .nan v = false := by
  cases v <;> rfl

theorem PVal.le_nan (v : PVal) : PVal.le v .nan = false := by
  cases v <;> rfl

theorem PVal.nan_le (v : PVal) : PVal.le .nan v = false := by
  cases v <;> rfl

theorem PVal.lt_fin_iff {a b : ℚ} : PVal.lt (.fin a) (.fin b) = true ↔ a < b := by
  simp [PVal.lt]

theorem PVal.le_fin_iff {a b : ℚ} : PVal.le (.fin a) (.fin b) = true ↔ a ≤ b := by
  simp [PVal.le]

theorem natSqrt_zero : natSqrt 0 = 0 := rfl

theorem natSqrt_one : natSqrt 1 = 1 := rfl

theorem PVal.sqrt_fin_zero : PVal.sqrt (.fin 0) = .fin 0 := by
  have h0 : (0 : ℚ).num.natAbs = 0 := rfl
  have h1 : (0 : ℚ).den = 1 := rfl
  simp [PVal.sqrt, ratSqrt?, h0, h1, natSqrt_zero, natSqrt_one]

/-! ### Rolling-window facts -/

theorem foldl_add_fin_replicate (q : ℚ) :
    ∀ (k : ℕ) (a : ℚ),
      (List.replicate k (PVal.fin q)).foldl PVal.add (.fin a) = .fin (a + k * q) := by
  intro k
  induction k with
  | zero => intro a; simp
  | succ m ih =>
    intro a
    rw [List.replicate_succ, List.foldl_cons, PVal.add_fin, ih]
    congr 1
    push_cast
    ring

theorem psum_replicate_fin (k : ℕ) (q : ℚ) :
    psum (List.replicate k (PVal.fin q)) = .fin (k * q) := by
  rw [psum, foldl_add_fin_replicate q k 0, zero_add]

theorem hasNan_replicate_fin (k : ℕ) (q : ℚ) :
    hasNan (List.replicate k (PVal.fin q)) = false := by
  simp [hasNan]

theorem rwindow_length {w i : ℕ} {s : List PVal} (hw : w ≤ i + 1) (hi : i < s.length) :
    (rwindow w s i).length = w := by
  simp only [rwindow, List.length_take, List.length_drop]
  omega

theorem rwindow_eq_replicate {w i : ℕ} {s : List PVal} {c : ℚ} (hw : w ≤ i + 1)
    (hi : i < s.length)
    (h : ∀ j, i + 1 - w ≤ j → j ≤ i → s.getD j .nan = .fin c) :
    rwindow w s i = List.replicate w (.fin c) := by
  refine List.eq_replicate_iff.2 ⟨rwindow_length hw hi, ?_⟩
  intro b hb
  rcases List.mem_iff_getElem?.1 hb with ⟨j, hj⟩
  have hjw : j < w := by
    have hlen : j < (rwindow w s i).length := by
      by_contra hge
      rw [List.getElem?_eq_none (by omega)] at hj
      exact Option.noConfusion hj
    rwa [rwindow_length hw hi] at hlen
  have hjs : (rwindow w s i)[j]? = s[(i + 1 - w) + j]? := by
    rw [rwindow, List.getElem?_take_of_lt hjw, List.getElem?_drop]
  have hidx : (i + 1 - w) + j ≤ i := by omega
  have hlt : (i + 1 - w) + j < s.length := by omega
  have : s[(i + 1 - w) + j]? = some b := by rw [← hjs]; exact hj
  have hval : s.getD ((i + 1 - w) + j) .nan = b := by
    rw [List.getD_eq_getElem?_getD, this]; rfl
  rw [← hval]
  exact h _ (by omega) hidx

theorem rolling_mean_const {w i : ℕ} {s : List PVal} {c : ℚ} (hw : 0 < w)
    (hw2 : w ≤ i + 1) (hi : i < s.length)
    (h : ∀ j, i + 1 - w ≤ j → j ≤ i → s.getD j .nan = .fin c) :
    rolling_mean w s i = .fin c := by
  rw [rolling_mean, if_neg (by omega), rwindow_eq_replicate hw2 hi h,
    hasNan_replicate_fin, psum_replicate_fin]
  simp only [Bool.false_eq_true, if_false]
  rw [PVal.div_fin _ (by positivity)]
  congr 1
  field_simp

theorem rolling_var_const {w i : ℕ} {s : List PVal} {c : ℚ} (hw : 1 < w)
    (hw2 : w ≤ i + 1) (hi : i < s.length)
    (h : ∀ j, i + 1 - w ≤ j → j ≤ i → s.getD j .nan = .fin c) :
    rolling_var w s i = .fin 0 := by
  rw [rolling_var, if_neg (by omega), rwindow_eq_replicate hw2 hi h,
    hasNan_replicate_fin]
  simp only [Bool.false_eq_true, if_false, psum_replicate_fin]
  have hm : PVal.div (.fin ((w : ℚ) * c)) (.fin (w : ℚ)) = .fin c := by
    rw [PVal.div_fin _ (by positivity)]
    congr 1
    field_simp
  rw [hm, List.map_replicate, PVal.sub_fin, sub_self, PVal.mul_fin, mul_zero,
    psum_replicate_fin, mul_zero, PVal.div_fin _ (by
      have : (1 : ℕ) ≤ w - 1 := by omega
      positivity), zero_div]

theorem rolling_std_const {w i : ℕ} {s : List PVal} {c : ℚ} (hw : 1 < w)
    (hw2 : w ≤ i + 1) (hi : i < s.length)
    (h : ∀ j, i + 1 - w ≤ j → j ≤ i → s.getD j .nan = .fin c) :
    rolling_std w s i = .fin 0 := by
  rw [rolling_std, rolling_var_const hw hw2 hi h, PVal.sqrt_fin_zero]

theorem rolling_mean_nan_of_nan {w i j : ℕ} {s : List PVal} (hi : i < s.length)
    (hj1 : i + 1 - w ≤ j) (hj2 : j ≤ i) (h : s.getD j .nan = .nan) :
    rolling_mean w s i = .nan := by
  rw [rolling_mean]
  by_cases hcase : i + 1 < w ∨ s.length ≤ i
  · rw [if_pos hcase]
  · rw [if_neg hcase]
    have hw : w ≤ i + 1 := by omega
    have hmem : PVal.nan ∈ rwindow w s i := by
      have hjlt : j - (i + 1 - w) < w := by omega
      have hjs : (rwindow w s i)[j - (i + 1 - w)]? = s[j]? := by
        rw [rwindow, List.getElem?_take_of_lt hjlt, List.getElem?_drop]
        congr 1
        omega
      have hjlen : j < s.length := by omega
      have : s[j]? = some PVal.nan := by
        rw [List.getElem?_eq_getElem hjlen]
        have := h
        rw [List.getD_eq_getElem?_getD, List.getElem?_eq_getElem hjlen] at this
        simp only [Option.getD_some] at this
        rw [this]
      exact List.mem_iff_getElem?.2 ⟨_, by rw [hjs, this]⟩
    have : hasNan (rwindow w s i) = true := by
      simp only [hasNan, List.any_eq_true, decide_eq_true_eq]
      exact ⟨_, hmem, rfl⟩
    rw [this]
    simp

theorem getD_map' {α β : Type _} (g : α → β) {l : List α} {j : ℕ} (h : j < l.length)
    (d : β) (d' : α) : (l.map g).getD j d = g (l.getD j d') := by
  simp [List.getD_eq_getElem?_getD, List.getElem?_map, List.getElem?_eq_getElem h]

theorem ewm_mean_const {span : ℕ} (hspan : 1 ≤ span) {xs : List ℚ} {i : ℕ} {c : ℚ}
    (h : ∀ j, j ≤ i → xs.getD j 0 = c) : ewm_mean span xs i = c := by
  have hpos : (0 : ℚ) < (span : ℚ) + 1 := by positivity
  have hα : (0 : ℚ) ≤ 1 - 2 / ((span : ℚ) + 1) := by
    rw [sub_nonneg, div_le_one hpos]
    have : (1 : ℚ) ≤ (span : ℚ) := by exact_mod_cast hspan
    linarith
  have hden : (0 : ℚ) < ∑ k ∈ Finset.range (i + 1), (1 - 2 / ((span : ℚ) + 1)) ^ k := by
    apply Finset.sum_pos'
    · intro k _
      positivity
    · exact ⟨0, Finset.mem_range.2 (Nat.succ_pos i), by norm_num⟩
  have hnum : ∑ k ∈ Finset.range (i + 1), (1 - 2 / ((span : ℚ) + 1)) ^ k * xs.getD (i - k) 0
      = (∑ k ∈ Finset.range (i + 1), (1 - 2 / ((span : ℚ) + 1)) ^ k) * c := by
    rw [Finset.sum_mul]
    refine Finset.sum_congr rfl fun k _ => ?_
    rw [h (i - k) (Nat.sub_le i k)]
  simp only [ewm_mean]
  rw [hnum, mul_comm, mul_div_assoc, div_self hden.ne', mul_one]

/-! ### Flat (constant-price) input series -/

/-- A bar series whose high, low and close are all the same constant
(the spec's "constant flat-price input, no noise"). -/
def FlatBars (c : ℚ) (bars : List Bar) : Prop :=
  ∀ b ∈ bars, b.high = c ∧ b.low = c ∧ b.close = c

theorem FlatBars.bar_getD {c : ℚ} {bars : List Bar} (h : FlatBars c bars) {i : ℕ}
    (hi : i < bars.length) :
    (bars.getD i default).high = c ∧ (bars.getD i default).low = c ∧
      (bars.getD i default).close = c :=
  h _ (getD_mem hi)

theorem FlatBars.close_getD {c : ℚ} {bars : List Bar} (h : FlatBars c bars) {i : ℕ}
    (hi : i < bars.length) : (close_series bars).getD i 0 = c := by
  rw [close_series, getD_map' Bar.close (by exact hi) 0 default]
  exact (h.bar_getD hi).2.2

theorem close_series_length (bars : List Bar) : (close_series bars).length = bars.length := by
  simp [close_series]

theorem flat_ewm_close {c : ℚ} {bars : List Bar} (h : FlatBars c bars) {span i : ℕ}
    (hspan : 1 ≤ span) (hi : i < bars.length) :
    ewm_mean span (close_series bars) i = c :=
  ewm_mean_const hspan fun _j hj => h.close_getD (lt_of_le_of_lt hj hi)

theorem flat_MACD_getD {c : ℚ} {bars : List Bar} (h : FlatBars c bars) {i : ℕ}
    (hi : i < bars.length) : (MACD_series bars).getD i 0 = 0 := by
  rw [MACD_series, getD_map_range _ hi, flat_ewm_close h (by norm_num [fx_params]) hi,
    flat_ewm_close h (by norm_num [fx_params]) hi, sub_self]

theorem MACD_series_length (bars : List Bar) : (MACD_series bars).length = bars.length := by
  simp [MACD_series]

theorem flat_MACD_Signal_getD {c : ℚ} {bars : List Bar} (h : FlatBars c bars) {i : ℕ}
    (hi : i < bars.length) : (MACD_Signal_series bars).getD i 0 = 0 := by
  rw [MACD_Signal_series, getD_map_range _ hi]
  exact ewm_mean_const (by norm_num [fx_params]) fun j hj =>
    flat_MACD_getD h (lt_of_le_of_lt hj hi)

theorem flat_MACD_Histogram_getD {c : ℚ} {bars : List Bar} (h : FlatBars c bars) {i : ℕ}
    (hi : i < bars.length) : (MACD_Histogram_series bars).getD i 0 = 0 := by
  rw [MACD_Histogram_series, getD_map_range _ hi, flat_MACD_getD h hi,
    flat_MACD_Signal_getD h hi, sub_self]

theorem closeP_getD {c : ℚ} {bars : List Bar} (h : FlatBars c bars) {j : ℕ}
    (hj : j < bars.length) :
    ((close_series bars).map PVal.fin).getD j .nan = .fin c := by
  rw [getD_map' PVal.fin (by rw [close_series_length]; exact hj) .nan 0, h.close_getD hj]

theorem flat_sma_bb_getD {c : ℚ} {bars : List Bar} (h : FlatBars c bars) {i : ℕ}
    (h14 : 14 ≤ i) (hi : i < bars.length) :
    (sma_bb_series bars).getD i .nan = .fin c := by
  rw [sma_bb_series, getD_map_range _ hi]
  have hbb : fx_params.bb_period = 15 := rfl
  rw [hbb]
  exact rolling_mean_const (by norm_num) (by omega)
    (by rw [List.length_map, close_series_length]; exact hi)
    (fun j _ hj2 => closeP_getD h (lt_of_le_of_lt hj2 hi))

theorem flat_std_bb_getD {c : ℚ} {bars : List Bar} (h : FlatBars c bars) {i : ℕ}
    (h14 : 14 ≤ i) (hi : i < bars.length) :
    (std_bb_series bars).getD i .nan = .fin 0 := by
  rw [std_bb_series, getD_map_range _ hi]
  have hbb : fx_params.bb_period = 15 := rfl
  rw [hbb]
  exact rolling_std_const (by norm_num) (by omega)
    (by rw [List.length_map, close_series_length]; exact hi)
    (fun j _ hj2 => closeP_getD h (lt_of_le_of_lt hj2 hi))

theorem flat_BB_Upper_getD {c : ℚ} {bars : List Bar} (h : FlatBars c bars) {i : ℕ}
    (h14 : 14 ≤ i) (hi : i < bars.length) :
    (BB_Upper_series bars).getD i .nan = .fin c := by
  rw [BB_Upper_series, getD_map_range _ hi, flat_sma_bb_getD h h14 hi,
    flat_std_bb_getD h h14 hi, PVal.mul_fin, PVal.add_fin, zero_mul, add_zero]

theorem flat_BB_Lower_getD {c : ℚ} {bars : List Bar} (h : FlatBars c bars) {i : ℕ}
    (h14 : 14 ≤ i) (hi : i < bars.length) :
    (BB_Lower_series bars).getD i .nan = .fin c := by
  rw [BB_Lower_series, getD_map_range _ hi, flat_sma_bb_getD h h14 hi,
    flat_std_bb_getD h h14 hi, PVal.mul_fin, PVal.sub_fin, zero_mul, sub_zero]

theorem flat_BB_Width_getD {c : ℚ} {bars : List Bar} (h : FlatBars c bars) {i : ℕ}
    (h14 : 14 ≤ i) (hi : i < bars.length) :
    (BB_Width_series bars).getD i .nan = .fin 0 := by
  rw [BB_Width_series, getD_map_range _ hi, flat_BB_Upper_getD h h14 hi,
    flat_BB_Lower_getD h h14 hi, PVal.sub_fin, sub_self]

theorem flat_BB_Position_getD {c : ℚ} {bars : List Bar} (h : FlatBars c bars) {i : ℕ}
    (h14 : 14 ≤ i) (hi : i < bars.length) :
    (BB_Position_series bars).getD i .nan = .nan := by
  rw [BB_Position_series, getD_map_range _ hi, flat_BB_Lower_getD h h14 hi,
    h.close_getD hi, flat_BB_Width_getD h h14 hi, PVal.sub_fin, sub_self,
    PVal.div_zero_zero]

theorem delta_series_length (bars : List Bar) : (delta_series bars).length = bars.length := by
  simp [delta_series]

theorem flat_delta_getD {c : ℚ} {bars : List Bar} (h : FlatBars c bars) {i : ℕ}
    (hi : i < bars.length) :
    (delta_series bars).getD i .nan = if i = 0 then .nan else .fin 0 := by
  rw [delta_series, getD_map_range _ hi]
  by_cases h0 : i = 0
  · simp [h0]
  · rw [if_neg h0, if_neg h0, h.close_getD hi, h.close_getD (by omega), sub_self]

theorem flat_gain_src_getD {c : ℚ} {bars : List Bar} (h : FlatBars c bars) {j : ℕ}
    (hj : j < bars.length) : (gain_src_series bars).getD j .nan = .fin 0 := by
  have hlen : j < (delta_series bars).length := by rw [delta_series_length]; exact hj
  rw [gain_src_series,
    getD_map' (fun d => if PVal.gt d (.fin 0) then d else .fin 0) hlen .nan .nan,
    flat_delta_getD h hj]
  by_cases h0 : j = 0
  · rw [if_pos h0]
    show (if PVal.gt .nan (.fin 0) then PVal.nan else .fin 0) = .fin 0
    rw [PVal.gt, PVal.lt_nan, if_neg (by simp)]
  · rw [if_neg h0]
    show (if PVal.gt (.fin 0) (.fin 0) then PVal.fin 0 else .fin 0) = .fin 0
    rw [PVal.gt]
    simp [PVal.lt]

theorem flat_loss_src_getD {c : ℚ} {bars : List Bar} (h : FlatBars c bars) {j : ℕ}
    (hj : j < bars.length) : (loss_src_series bars).getD j .nan = .fin 0 := by
  have hlen : j < (delta_series bars).length := by rw [delta_series_length]; exact hj
  rw [loss_src_series,
    getD_map' (fun d => if PVal.lt d (.fin 0) then PVal.neg d else .fin 0) hlen .nan .nan,
    flat_delta_getD h hj]
  by_cases h0 : j = 0
  · rw [if_pos h0]
    show (if PVal.lt .nan (.fin 0) then PVal.neg .nan else .fin 0) = .fin 0
    rw [PVal.nan_lt, if_neg (by simp)]
  · rw [if_neg h0]
    show (if PVal.lt (.fin 0) (.fin 0) then PVal.neg (.fin 0) else .fin 0) = .fin 0
    simp [PVal.lt]

theorem gain_src_series_length (bars : List Bar) :
    (gain_src_series bars).length = bars.length := by
  simp [gain_src_series, delta_series]

theorem loss_src_series_length (bars : List Bar) :
    (loss_src_series bars).length = bars.length := by
  simp [loss_src_series, delta_series]

theorem flat_gain_getD {c : ℚ} {bars : List Bar} (h : FlatBars c bars) {i : ℕ}
    (h9 : 9 ≤ i) (hi : i < bars.length) : (gain_series bars).getD i .nan = .fin 0 := by
  rw [gain_series, getD_map_range _ hi]
  have hr : fx_params.rsi_period = 10 := rfl
  rw [hr]
  exact rolling_mean_const (by norm_num) (by omega)
    (by rw [gain_src_series_length]; exact hi)
    (fun j _ hj2 => flat_gain_src_getD h (lt_of_le_of_lt hj2 hi))

theorem flat_loss_getD {c : ℚ} {bars : List Bar} (h : FlatBars c bars) {i : ℕ}
    (h9 : 9 ≤ i) (hi : i < bars.length) : (loss_series bars).getD i .nan = .fin 0 := by
  rw [loss_series, getD_map_range _ hi]
  have hr : fx_params.rsi_period = 10 := rfl
  rw [hr]
  exact rolling_mean_const (by norm_num) (by omega)
    (by rw [loss_src_series_length]; exact hi)
    (fun j _ hj2 => flat_loss_src_getD h (lt_of_le_of_lt hj2 hi))

theorem flat_RSI_getD {c : ℚ} {bars : List Bar} (h : FlatBars c bars) {i : ℕ}
    (h9 : 9 ≤ i) (hi : i < bars.length) : (RSI_series bars).getD i .nan = .nan := by
  rw [RSI_series, getD_map_range _ hi, flat_gain_getD h h9 hi, flat_loss_getD h h9 hi,
    PVal.div_zero_zero, PVal.add_nan, PVal.div_nan, PVal.sub_nan]

theorem PVal.maxSkipNan_nan_right (v : PVal) : PVal.maxSkipNan v .nan = v := by
  cases v <;> rfl

theorem PVal.maxSkipNan_fin_self (a : ℚ) :
    PVal.maxSkipNan (.fin a) (.fin a) = .fin a := by
  show (if PVal.le (.fin a) (.fin a) then PVal.fin a else .fin a) = .fin a
  simp

theorem flat_true_range_getD {c : ℚ} {bars : List Bar} (h : FlatBars c bars) {i : ℕ}
    (hi : i < bars.length) : (true_range_series bars).getD i .nan = .fin 0 := by
  rw [true_range_series, getD_map_range _ hi]
  simp only
  rw [(h.bar_getD hi).1, (h.bar_getD hi).2.1]
  by_cases h0 : i = 0
  · rw [if_pos h0, sub_self, PVal.maxSkipNan_nan_right, PVal.maxSkipNan_nan_right]
  · rw [if_neg h0, h.close_getD (by omega), sub_self, abs_zero,
      PVal.maxSkipNan_fin_self, PVal.maxSkipNan_fin_self]

theorem true_range_series_length (bars : List Bar) :
    (true_range_series bars).length = bars.length := by
  simp [true_range_series]

theorem flat_ATR_getD {c : ℚ} {bars : List Bar} (h : FlatBars c bars) {i : ℕ}
    (h9 : 9 ≤ i) (hi : i < bars.length) : (ATR_series bars).getD i .nan = .fin 0 := by
  rw [ATR_series, getD_map_range _ hi]
  have hr : fx_params.atr_period = 10 := rfl
  rw [hr]
  exact rolling_mean_const (by norm_num) (by omega)
    (by rw [true_range_series_length]; exact hi)
    (fun j _ hj2 => flat_true_range_getD h (lt_of_le_of_lt hj2 hi))

theorem flat_ATR_Pct_getD {c : ℚ} {bars : List Bar} (h : FlatBars c bars) (hc : c ≠ 0)
    {i : ℕ} (h9 : 9 ≤ i) (hi : i < bars.length) :
    (ATR_Pct_series bars).getD i .nan = .fin 0 := by
  rw [ATR_Pct_series, getD_map_range _ hi, flat_ATR_getD h h9 hi, h.close_getD hi,
    PVal.div_fin _ hc, zero_div, PVal.mul_fin, zero_mul]

theorem ATR_Pct_series_length (bars : List Bar) :
    (ATR_Pct_series bars).length = bars.length := by
  simp [ATR_Pct_series]

theorem flat_atr_avg {c : ℚ} {bars : List Bar} (h : FlatBars c bars) (hc : c ≠ 0)
    {i : ℕ} (h50 : 50 ≤ i) (hi : i < bars.length) :
    rolling_mean 20 (ATR_Pct_series bars) i = .fin 0 :=
  rolling_mean_const (by norm_num) (by omega)
    (by rw [ATR_Pct_series_length]; exact hi)
    (fun j hj1 hj2 => flat_ATR_Pct_getD h hc (by omega) (lt_of_le_of_lt hj2 hi))

theorem flat_Volatility_getD {c : ℚ} {bars : List Bar} (h : FlatBars c bars) (hc : c ≠ 0)
    {i : ℕ} (h9 : 9 ≤ i) (hi : i < bars.length) :
    (Volatility_10_series bars).getD i .nan = .fin 0 := by
  rw [Volatility_10_series, getD_map_range _ hi]
  rw [rolling_std_const (by norm_num) (by omega)
      (by rw [List.length_map, close_series_length]; exact hi)
      (fun j _ hj2 => closeP_getD h (lt_of_le_of_lt hj2 hi)),
    rolling_mean_const (w := 10) (by norm_num) (by omega)
      (by rw [List.length_map, close_series_length]; exact hi)
      (fun j _ hj2 => closeP_getD h (lt_of_le_of_lt hj2 hi)),
    PVal.div_fin _ hc, zero_div]

theorem flat_Volatility_getD_nan {c : ℚ} {bars : List Bar} (_h : FlatBars c bars)
    {i : ℕ} (h9 : i < 9) (hi : i < bars.length) :
    (Volatility_10_series bars).getD i .nan = .nan := by
  rw [Volatility_10_series, getD_map_range _ hi, rolling_std, rolling_var,
    if_pos (Or.inl (by omega))]
  show PVal.div .nan _ = .nan
  rw [PVal.nan_div]

theorem Volatility_10_series_length (bars : List Bar) :
    (Volatility_10_series bars).length = bars.length := by
  simp [Volatility_10_series]

theorem flat_vol_avg_nan {c : ℚ} {bars : List Bar} (h : FlatBars c bars) {i : ℕ}
    (h50 : 50 ≤ i) (h57 : i ≤ 57) (hi : i < bars.length) :
    rolling_mean 50 (Volatility_10_series bars) i = .nan :=
  rolling_mean_nan_of_nan (by rw [Volatility_10_series_length]; exact hi)
    (j := i - 49) (by omega) (by omega)
    (flat_Volatility_getD_nan h (by omega) (by omega))

theorem flat_vol_avg_zero {c : ℚ} {bars : List Bar} (h : FlatBars c bars) (hc : c ≠ 0)
    {i : ℕ} (h58 : 58 ≤ i) (hi : i < bars.length) :
    rolling_mean 50 (Volatility_10_series bars) i = .fin 0 :=
  rolling_mean_const (by norm_num) (by omega)
    (by rw [Volatility_10_series_length]; exact hi)
    (fun j hj1 hj2 => flat_Volatility_getD h hc (by omega) (lt_of_le_of_lt hj2 hi))

theorem flat_Daily_Range_Pct_getD {c : ℚ} {bars : List Bar} (h : FlatBars c bars)
    (hc : c ≠ 0) {i : ℕ} (hi : i < bars.length) :
    (Daily_Range_Pct bars).getD i .nan = .fin 0 := by
  rw [Daily_Range_Pct, getD_map_range _ hi, (h.bar_getD hi).1, (h.bar_getD hi).2.1,
    (h.bar_getD hi).2.2, sub_self, PVal.div_fin _ hc, zero_div, PVal.mul_fin, zero_mul]

theorem Daily_Range_Pct_length (bars : List Bar) :
    (Daily_Range_Pct bars).length = bars.length := by
  simp [Daily_Range_Pct]

theorem flat_range_avg {c : ℚ} {bars : List Bar} (h : FlatBars c bars) (hc : c ≠ 0)
    {i : ℕ} (h19 : 19 ≤ i) (hi : i < bars.length) :
    rolling_mean 20 (Daily_Range_Pct bars) i = .fin 0 :=
  rolling_mean_const (by norm_num) (by omega)
    (by rw [Daily_Range_Pct_length]; exact hi)
    (fun j _ hj2 => flat_Daily_Range_Pct_getD h hc (lt_of_le_of_lt hj2 hi))

theorem flat_pct_change {c : ℚ} {bars : List Bar} (h : FlatBars c bars) (hc : c ≠ 0)
    {k i : ℕ} (hk : k ≤ i) (hi : i < bars.length) :
    pct_change k (close_series bars) i = .fin 0 := by
  rw [pct_change, if_neg (by omega), h.close_getD hi, h.close_getD (by omega),
    PVal.div_fin _ hc, div_self hc, PVal.sub_fin, sub_self]

theorem ind_MACD (bars : List Bar) :
    (calculate_fx_optimized_indicators bars).MACD = (MACD_series bars).map PVal.fin := rfl

theorem ind_MACD_Signal (bars : List Bar) :
    (calculate_fx_optimized_indicators bars).MACD_Signal =
      (MACD_Signal_series bars).map PVal.fin := rfl

theorem ind_MACD_Histogram (bars : List Bar) :
    (calculate_fx_optimized_indicators bars).MACD_Histogram =
      (MACD_Histogram_series bars).map PVal.fin := rfl

theorem ind_BB_Position (bars : List Bar) :
    (calculate_fx_optimized_indicators bars).BB_Position = BB_Position_series bars := rfl

theorem ind_BB_Width (bars : List Bar) :
    (calculate_fx_optimized_indicators bars).BB_Width = BB_Width_series bars := rfl

theorem ind_RSI (bars : List Bar) :
    (calculate_fx_optimized_indicators bars).RSI = RSI_series bars := rfl

theorem ind_ATR_Pct (bars : List Bar) :
    (calculate_fx_optimized_indicators bars).ATR_Pct = ATR_Pct_series bars := rfl

theorem ind_Volatility_10 (bars : List Bar) :
    (calculate_fx_optimized_indicators bars).Volatility_10 = Volatility_10_series bars := rfl

theorem ind_EMA_5 (bars : List Bar) :
    (calculate_fx_optimized_indicators bars).EMA_5 =
      (List.range bars.length).map (fun i => .fin (ewm_mean 5 (close_series bars) i)) := rfl

theorem ind_EMA_13 (bars : List Bar) :
    (calculate_fx_optimized_indicators bars).EMA_13 =
      (List.range bars.length).map (fun i => .fin (ewm_mean 13 (close_series bars) i)) := rfl

theorem ind_EMA_34 (bars : List Bar) :
    (calculate_fx_optimized_indicators bars).EMA_34 =
      (List.range bars.length).map (fun i => .fin (ewm_mean 34 (close_series bars) i)) := rfl

theorem ind_Price_Change_3 (bars : List Bar) :
    (calculate_fx_optimized_indicators bars).Price_Change_3 =
      (List.range bars.length).map (pct_change 3 (close_series bars)) := rfl

theorem ind_Price_Change_5 (bars : List Bar) :
    (calculate_fx_optimized_indicators bars).Price_Change_5 =
      (List.range bars.length).map (pct_change 5 (close_series bars)) := rfl

theorem flat_analyze_momentum {c : ℚ} {bars : List Bar} (h : FlatBars c bars) {i : ℕ}
    (hi : i < bars.length) :
    analyze_fx_momentum (calculate_fx_optimized_indicators bars) i = ⟨-1, ["macd_bear"]⟩ := by
  have hm : (calculate_fx_optimized_indicators bars).MACD.getD i .nan = .fin 0 := by
    rw [ind_MACD, getD_map' PVal.fin (by rw [MACD_series_length]; exact hi) .nan 0,
      flat_MACD_getD h hi]
  have hs : (calculate_fx_optimized_indicators bars).MACD_Signal.getD i .nan = .fin 0 := by
    rw [ind_MACD_Signal,
      getD_map' PVal.fin (by simp [MACD_Signal_series]; exact hi) .nan 0,
      flat_MACD_Signal_getD h hi]
  have hh : (calculate_fx_optimized_indicators bars).MACD_Histogram.getD i .nan = .fin 0 := by
    rw [ind_MACD_Histogram,
      getD_map' PVal.fin (by simp [MACD_Histogram_series]; exact hi) .nan 0,
      flat_MACD_Histogram_getD h hi]
  have hh1 : (calculate_fx_optimized_indicators bars).MACD_Histogram.getD (i - 1) .nan
      = .fin 0 := by
    rw [ind_MACD_Histogram,
      getD_map' PVal.fin (by simp [MACD_Histogram_series]; omega) .nan 0,
      flat_MACD_Histogram_getD h (by omega)]
  have he5 : (calculate_fx_optimized_indicators bars).EMA_5.getD i .nan = .fin c := by
    rw [ind_EMA_5, getD_map_range _ hi, flat_ewm_close h (by norm_num) hi]
  have he13 : (calculate_fx_optimized_indicators bars).EMA_13.getD i .nan = .fin c := by
    rw [ind_EMA_13, getD_map_range _ hi, flat_ewm_close h (by norm_num) hi]
  have he34 : (calculate_fx_optimized_indicators bars).EMA_34.getD i .nan = .fin c := by
    rw [ind_EMA_34, getD_map_range _ hi, flat_ewm_close h (by norm_num) hi]
  simp only [analyze_fx_momentum, hm, hs, hh, hh1, he5, he13, he34, PVal.gt]
  simp [PVal.lt]

theorem flat_analyze_mean_reversion {c : ℚ} {bars : List Bar} (h : FlatBars c bars) {i : ℕ}
    (h14 : 14 ≤ i) (hi : i < bars.length) :
    analyze_fx_mean_reversion (calculate_fx_optimized_indicators bars) i = ⟨0, []⟩ := by
  have hrsi : (calculate_fx_optimized_indicators bars).RSI.getD i .nan = .nan := by
    rw [ind_RSI]; exact flat_RSI_getD h (by omega) hi
  have hbb : (calculate_fx_optimized_indicators bars).BB_Position.getD i .nan = .nan := by
    rw [ind_BB_Position]; exact flat_BB_Position_getD h h14 hi
  simp only [analyze_fx_mean_reversion, hrsi, hbb, PVal.gt, PVal.nan_lt, PVal.lt_nan,
    PVal.le_nan, PVal.nan_le]
  simp

theorem flat_analyze_breakout {c : ℚ} {bars : List Bar} (h : FlatBars c bars) (hc : c ≠ 0)
    {i : ℕ} (h50 : 50 ≤ i) (hi : i < bars.length) :
    analyze_fx_breakout bars (calculate_fx_optimized_indicators bars) i = ⟨0, []⟩ := by
  have hatr : (calculate_fx_optimized_indicators bars).ATR_Pct.getD i .nan = .fin 0 := by
    rw [ind_ATR_Pct]; exact flat_ATR_Pct_getD h hc (by omega) hi
  have havg : rolling_mean 20 (calculate_fx_optimized_indicators bars).ATR_Pct i = .fin 0 := by
    rw [ind_ATR_Pct]; exact flat_atr_avg h hc h50 hi
  have hdrp : (Daily_Range_Pct bars).getD i .nan = .fin 0 :=
    flat_Daily_Range_Pct_getD h hc hi
  have hravg : rolling_mean 20 (Daily_Range_Pct bars) i = .fin 0 :=
    flat_range_avg h hc (by omega) hi
  simp only [analyze_fx_breakout, hatr, havg, hdrp, hravg, PVal.mul_fin, PVal.gt]
  simp [PVal.lt]

theorem flat_risk_score_early {c : ℚ} {bars : List Bar} (h : FlatBars c bars) (hc : c ≠ 0)
    {i : ℕ} (h50 : 50 ≤ i) (h57 : i ≤ 57) (hi : i < bars.length) :
    (analyze_fx_risk bars (calculate_fx_optimized_indicators bars) i).score =
      session_bonus (identify_trading_session (bars.getD i default).hour) := by
  have hvol : (calculate_fx_optimized_indicators bars).Volatility_10.getD i .nan = .fin 0 := by
    rw [ind_Volatility_10]; exact flat_Volatility_getD h hc (by omega) hi
  have havg : rolling_mean 50 (calculate_fx_optimized_indicators bars).Volatility_10 i
      = .nan := by
    rw [ind_Volatility_10]; exact flat_vol_avg_nan h h50 h57 hi
  simp only [analyze_fx_risk, hvol, havg, PVal.nan_mul, PVal.le_nan, PVal.nan_le, PVal.ge,
    session_bonus]
  split_ifs <;> first | contradiction | norm_num

theorem flat_risk_score_late {c : ℚ} {bars : List Bar} (h : FlatBars c bars) (hc : c ≠ 0)
    {i : ℕ} (h58 : 58 ≤ i) (hi : i < bars.length) :
    (analyze_fx_risk bars (calculate_fx_optimized_indicators bars) i).score =
      1 + session_bonus (identify_trading_session (bars.getD i default).hour) := by
  have hvol : (calculate_fx_optimized_indicators bars).Volatility_10.getD i .nan = .fin 0 := by
    rw [ind_Volatility_10]; exact flat_Volatility_getD h hc (by omega) hi
  have havg : rolling_mean 50 (calculate_fx_optimized_indicators bars).Volatility_10 i
      = .fin 0 := by
    rw [ind_Volatility_10]; exact flat_vol_avg_zero h hc h58 hi
  have hle : PVal.le (.fin 0) (PVal.mul (.fin 0) (.fin 1.1)) = true := by
    rw [PVal.mul_fin]
    exact PVal.le_fin_iff.2 (by norm_num)
  simp only [analyze_fx_risk, hvol, havg, hle, session_bonus]
  split_ifs <;> first | contradiction | norm_num

theorem session_cases (hr : ℕ) :
    identify_trading_session hr = "Tokyo" ∨ identify_trading_session hr = "Overlap" ∨
    identify_trading_session hr = "London" ∨ identify_trading_session hr = "NY" ∨
    identify_trading_session hr = "Quiet" := by
  unfold identify_trading_session
  split_ifs <;> simp

theorem make_fx_decision_hold (mo mr bo ri : SubScore) (m : ℚ)
    (h1 : -1.5 < (mo.score + bo.score) * m + mr.score * m + ri.score)
    (h2 : (mo.score + bo.score) * m + mr.score * m + ri.score < 1.5) :
    make_fx_decision mo mr bo ri m = ⟨0, 0, 0, "FX_HOLD: Mixed signals"⟩ := by
  simp only [make_fx_decision]
  rw [if_neg (not_le.2 (by linarith)), if_neg (not_le.2 (by linarith)),
    if_neg (not_le.2 (by linarith)), if_neg (not_le.2 (by linarith))]

theorem generate_fx_signals_getD_lt (bars : List Bar) (indicators : IndicatorSet) {i : ℕ}
    (h50 : i < 50) (hi : i < bars.length) :
    (generate_fx_signals bars indicators).getD i default =
      { Price := (bars.getD i default).close, Signal := 0, Position := 0,
        Confidence := 0, FX_Strategy := "", Session := "" } := by
  rw [generate_fx_signals, getD_map_range _ hi]
  simp only [h50, if_true]

theorem generate_fx_signals_getD_ge (bars : List Bar) (indicators : IndicatorSet) {i : ℕ}
    (h50 : ¬ i < 50) (hi : i < bars.length) :
    (generate_fx_signals bars indicators).getD i default =
      { Price := (bars.getD i default).close
        Signal := (make_fx_decision (analyze_fx_momentum indicators i)
          (analyze_fx_mean_reversion indicators i)
          (analyze_fx_breakout bars indicators i)
          (analyze_fx_risk bars indicators i)
          (get_session_multiplier
            (identify_trading_session (bars.getD i default).hour))).signal
        Position := (make_fx_decision (analyze_fx_momentum indicators i)
          (analyze_fx_mean_reversion indicators i)
          (analyze_fx_breakout bars indicators i)
          (analyze_fx_risk bars indicators i)
          (get_session_multiplier
            (identify_trading_session (bars.getD i default).hour))).position
        Confidence := (make_fx_decision (analyze_fx_momentum indicators i)
          (analyze_fx_mean_reversion indicators i)
          (analyze_fx_breakout bars indicators i)
          (analyze_fx_risk bars indicators i)
          (get_session_multiplier
            (identify_trading_session (bars.getD i default).hour))).confidence
        FX_Strategy := (make_fx_decision (analyze_fx_momentum indicators i)
          (analyze_fx_mean_reversion indicators i)
          (analyze_fx_breakout bars indicators i)
          (analyze_fx_risk bars indicators i)
          (get_session_multiplier
            (identify_trading_session (bars.getD i default).hour))).strategy
        Session := identify_trading_session (bars.getD i default).hour } := by
  rw [generate_fx_signals, getD_map_range _ hi]
  simp only [h50, if_false]

theorem get_session_multiplier_Tokyo : get_session_multiplier "Tokyo" = 1 := by
  simp +decide [get_session_multiplier]
  try norm_num

theorem get_session_multiplier_Overlap : get_session_multiplier "Overlap" = 1.3 := by
  simp +decide [get_session_multiplier]
  try norm_num

theorem get_session_multiplier_London : get_session_multiplier "London" = 1.2 := by
  simp +decide [get_session_multiplier]
  try norm_num

theorem get_session_multiplier_NY : get_session_multiplier "NY" = 1.1 := by
  simp +decide [get_session_multiplier]
  try norm_num

theorem get_session_multiplier_Quiet : get_session_multiplier "Quiet" = 0.7 := by
  simp +decide [get_session_multiplier]
  try norm_num

theorem session_bonus_Tokyo : session_bonus "Tokyo" = 0 := by
  simp +decide [session_bonus]
  try norm_num

theorem session_bonus_Overlap : session_bonus "Overlap" = 0.5 := by
  simp +decide [session_bonus]
  try norm_num

theorem session_bonus_London : session_bonus "London" = 0.5 := by
  simp +decide [session_bonus]
  try norm_num

theorem session_bonus_NY : session_bonus "NY" = 0 := by
  simp +decide [session_bonus]
  try norm_num

theorem session_bonus_Quiet : session_bonus "Quiet" = -0.5 := by
  simp +decide [session_bonus]
  try norm_num

theorem flat_signal_row {c : ℚ} {bars : List Bar} (h : FlatBars c bars) (hc : 0 < c)
    {i : ℕ} (h50 : 50 ≤ i) (hi : i < bars.length) :
    (generate_fx_signals bars (calculate_fx_optimized_indicators bars)).getD i default =
      { Price := c, Signal := 0, Position := 0, Confidence := 0,
        FX_Strategy := "FX_HOLD: Mixed signals",
        Session := identify_trading_session (bars.getD i default).hour } := by
  rw [generate_fx_signals_getD_ge _ _ (by omega) hi, flat_analyze_momentum h hi,
    flat_analyze_mean_reversion h (by omega) hi,
    flat_analyze_breakout h (ne_of_gt hc) h50 hi, (h.bar_getD hi).2.2]
  have hrisk : (analyze_fx_risk bars (calculate_fx_optimized_indicators bars) i).score =
      session_bonus (identify_trading_session (bars.getD i default).hour) ∨
      (analyze_fx_risk bars (calculate_fx_optimized_indicators bars) i).score =
      1 + session_bonus (identify_trading_session (bars.getD i default).hour) := by
    by_cases h58 : 58 ≤ i
    · exact Or.inr (flat_risk_score_late h (ne_of_gt hc) h58 hi)
    · exact Or.inl (flat_risk_score_early h (ne_of_gt hc) h50 (by omega) hi)
  have hd : make_fx_decision ⟨-1, ["macd_bear"]⟩ ⟨0, []⟩ ⟨0, []⟩
      (analyze_fx_risk bars (calculate_fx_optimized_indicators bars) i)
      (get_session_multiplier (identify_trading_session (bars.getD i default).hour)) =
      ⟨0, 0, 0, "FX_HOLD: Mixed signals"⟩ := by
    apply make_fx_decision_hold
    all_goals
      rcases session_cases (bars.getD i default).hour with hs | hs | hs | hs | hs <;>
        rw [hs] <;>
        rcases hrisk with hr | hr <;>
        rw [hs] at hr <;>
        rw [hr] <;>
        simp only [get_session_multiplier_Tokyo, get_session_multiplier_Overlap,
          get_session_multiplier_London, get_session_multiplier_NY,
          get_session_multiplier_Quiet, session_bonus_Tokyo, session_bonus_Overlap,
          session_bonus_London, session_bonus_NY, session_bonus_Quiet] <;>
        norm_num
  rw [hd]

theorem make_fx_decision_bounds (mo mr bo ri : SubScore) (m : ℚ) :
    -1 ≤ (make_fx_decision mo mr bo ri m).position ∧
    (make_fx_decision mo mr bo ri m).position ≤ 1 ∧
    0 ≤ (make_fx_decision mo mr bo ri m).confidence ∧
    (make_fx_decision mo mr bo ri m).confidence ≤ 1 := by
  simp only [make_fx_decision]
  split_ifs with h1 h2 h3 h4
  · exact ⟨by norm_num, by norm_num, le_min (by linarith) (by norm_num), min_le_right _ _⟩
  · exact ⟨by norm_num, by norm_num, le_min (by positivity) (by norm_num), min_le_right _ _⟩
  · refine ⟨by norm_num, by norm_num, by linarith, ?_⟩
    show _ / 4 ≤ (1 : ℚ)
    rw [not_le] at h1
    linarith
  · refine ⟨by norm_num, by norm_num, by positivity, ?_⟩
    show |_| / 4 ≤ (1 : ℚ)
    rw [not_le] at h2
    rw [abs_of_nonpos (by linarith)]
    linarith
  · exact ⟨by norm_num, by norm_num, le_refl 0, by norm_num⟩

theorem make_fx_decision_signal_position (mo mr bo ri : SubScore) (m : ℚ) :
    ((make_fx_decision mo mr bo ri m).position = -1 ∨
      (make_fx_decision mo mr bo ri m).position = -0.5 ∨
      (make_fx_decision mo mr bo ri m).position = 0 ∨
      (make_fx_decision mo mr bo ri m).position = 0.5 ∨
      (make_fx_decision mo mr bo ri m).position = 1) ∧
    ((make_fx_decision mo mr bo ri m).signal = 0 ↔
      (make_fx_decision mo mr bo ri m).position = 0) ∧
    ((make_fx_decision mo mr bo ri m).signal = 1 ↔
      0 < (make_fx_decision mo mr bo ri m).position) ∧
    ((make_fx_decision mo mr bo ri m).signal = -1 ↔
      (make_fx_decision mo mr bo ri m).position < 0) := by
  simp only [make_fx_decision]
  split_ifs <;> norm_num

theorem PVal.abs_fin (a : ℚ) : PVal.abs (.fin a) = .fin |a| := rfl

theorem PVal.abs_nan : PVal.abs .nan = .nan := rfl

theorem flatBars_replicate_150 (n : ℕ) : FlatBars 150 (List.replicate n flat_bar_150) :=
  fun b hb => by rw [List.eq_of_mem_replicate hb]; exact ⟨rfl, rfl, rfl⟩

/-- Claim C5: for a constant flat-price input series (every bar's high, low
and close equal to one positive constant, no added noise, arbitrary hours),
every Decision past the warm-up index 50 is the hold decision: signal 0 and
position 0, regardless of the bar's session. -/
theorem C5_flat_input_all_hold {c : ℚ} {bars : List Bar} (h : FlatBars c bars)
    (hc : 0 < c) {i : ℕ} (h50 : 50 ≤ i) (hi : i < bars.length) :
    ((generate_fx_signals bars (calculate_fx_optimized_indicators bars)).getD i
      default).Signal = 0 ∧
    ((generate_fx_signals bars (calculate_fx_optimized_indicators bars)).getD i
      default).Position = 0 := by
  rw [flat_signal_row h hc h50 hi]
  exact ⟨rfl, rfl⟩

/-- Witness for C5 at 51 flat bars of 150.00 and bar index 50. -/
theorem C5_flat_input_all_hold_witness :
    FlatBars 150 (List.replicate 51 flat_bar_150) ∧ (0 : ℚ) < 150 ∧
    50 < (List.replicate 51 flat_bar_150).length ∧
    ((generate_fx_signals (List.replicate 51 flat_bar_150)
      (calculate_fx_optimized_indicators (List.replicate 51 flat_bar_150))).getD 50
      default).Signal = 0 :=
  ⟨flatBars_replicate_150 51, by norm_num, by simp,
    (C5_flat_input_all_hold (flatBars_replicate_150 51) (by norm_num) (le_refl 50)
      (by simp)).1⟩

/-- Claim C6: for every bar with index strictly below the warm-up window
`W = 50`, the produced Decision row is exactly signal 0, position 0,
confidence 0 (the initializers of the `signals` DataFrame, which the
scoring loop starting at index 50 never overwrites). -/
theorem C6_warmup_zero_decision (bars : List Bar) (indicators : IndicatorSet) {i : ℕ}
    (h50 : i < 50) (hi : i < bars.length) :
    ((generate_fx_signals bars indicators).getD i default).Signal = 0 ∧
    ((generate_fx_signals bars indicators).getD i default).Position = 0 ∧
    ((generate_fx_signals bars indicators).getD i default).Confidence = 0 := by
  rw [generate_fx_signals_getD_lt bars indicators h50 hi]
  exact ⟨rfl, rfl, rfl⟩

/-- Witness for C6 at bar 0 of the 60-bar flat series. -/
theorem C6_warmup_zero_decision_witness :
    (0 < 50) ∧ (0 < flat_bars_60.length) ∧
    ((generate_fx_signals flat_bars_60 mean_reversion_cex_indicators).getD 0
      default).Signal = 0 :=
  ⟨by norm_num, by simp [flat_bars_60],
    (C6_warmup_zero_decision flat_bars_60 mean_reversion_cex_indicators (by norm_num)
      (by simp [flat_bars_60])).1⟩

/-- Claim C7: for every bar of every input series (and any indicator
table), the produced Decision row satisfies `position ∈ [-1, 1]` and
`confidence ∈ [0, 1]`. -/
theorem C7_position_confidence_bounds (bars : List Bar) (indicators : IndicatorSet)
    {i : ℕ} (hi : i < bars.length) :
    -1 ≤ ((generate_fx_signals bars indicators).getD i default).Position ∧
    ((generate_fx_signals bars indicators).getD i default).Position ≤ 1 ∧
    0 ≤ ((generate_fx_signals bars indicators).getD i default).Confidence ∧
    ((generate_fx_signals bars indicators).getD i default).Confidence ≤ 1 := by
  by_cases h50 : i < 50
  · rw [generate_fx_signals_getD_lt bars indicators h50 hi]
    norm_num
  · rw [generate_fx_signals_getD_ge bars indicators h50 hi]
    exact make_fx_decision_bounds _ _ _ _ _

/-- Witness for C7 at bar 50 of the 60-bar flat series. -/
theorem C7_position_confidence_bounds_witness :
    (50 < flat_bars_60.length) ∧
    -1 ≤ ((generate_fx_signals flat_bars_60
      (calculate_fx_optimized_indicators flat_bars_60)).getD 50 default).Position :=
  ⟨by simp [flat_bars_60],
    (C7_position_confidence_bounds flat_bars_60
      (calculate_fx_optimized_indicators flat_bars_60) (by simp [flat_bars_60])).1⟩

/-- Claim C10: for every bar of every input series (and any indicator
table), the Decision's signal is the sign of its position — 0 iff the
position is 0, +1 iff it is positive, −1 iff it is negative — and the
position takes no value outside `{-1, -0.5, 0, 0.5, 1}`. -/
theorem C10_signal_is_sign_of_position (bars : List Bar) (indicators : IndicatorSet)
    {i : ℕ} (hi : i < bars.length) :
    (((generate_fx_signals bars indicators).getD i default).Position = -1 ∨
      ((generate_fx_signals bars indicators).getD i default).Position = -0.5 ∨
      ((generate_fx_signals bars indicators).getD i default).Position = 0 ∨
      ((generate_fx_signals bars indicators).getD i default).Position = 0.5 ∨
      ((generate_fx_signals bars indicators).getD i default).Position = 1) ∧
    (((generate_fx_signals bars indicators).getD i default).Signal = 0 ↔
      ((generate_fx_signals bars indicators).getD i default).Position = 0) ∧
    (((generate_fx_signals bars indicators).getD i default).Signal = 1 ↔
      0 < ((generate_fx_signals bars indicators).getD i default).Position) ∧
    (((generate_fx_signals bars indicators).getD i default).Signal = -1 ↔
      ((generate_fx_signals bars indicators).getD i default).Position < 0) := by
  by_cases h50 : i < 50
  · rw [generate_fx_signals_getD_lt bars indicators h50 hi]
    norm_num
  · rw [generate_fx_signals_getD_ge bars indicators h50 hi]
    exact make_fx_decision_signal_position _ _ _ _ _

/-- Witness for C10 at bar 0 of the 60-bar flat series. -/
theorem C10_signal_is_sign_of_position_witness :
    (0 < flat_bars_60.length) ∧
    (((generate_fx_signals flat_bars_60 mean_reversion_cex_indicators).getD 0
      default).Signal = 0 ↔
      ((generate_fx_signals flat_bars_60 mean_reversion_cex_indicators).getD 0
      default).Position = 0) :=
  ⟨by simp [flat_bars_60],
    (C10_signal_is_sign_of_position flat_bars_60 mean_reversion_cex_indicators
      (by simp [flat_bars_60])).2.1⟩

/-- Claim C8: the session classifier evaluates Tokyo `[0,9)`, Overlap
`[13,17)`, London `[8,17)`, New York `[13,22)` in that fixed priority
order with first match winning, Quiet otherwise; in particular hour 3 is
Tokyo, 14 is Overlap, 19 is NY and 23 is Quiet.  The final conjunct
compares the code's classifier with the spec's priority procedure
(`spec_session_classifier`) at every hour. -/
theorem C8_session_classification :
    identify_trading_session 3 = "Tokyo" ∧ identify_trading_session 14 = "Overlap" ∧
    identify_trading_session 19 = "NY" ∧ identify_trading_session 23 = "Quiet" ∧
    ∀ hr : ℕ, identify_trading_session hr = spec_session_classifier hr := by
  refine ⟨rfl, rfl, rfl, rfl, fun hr => ?_⟩
  simp only [identify_trading_session, spec_session_classifier, Tokyo_Session,
    Overlap_Session, London_Session, NY_Session, Bool.and_eq_true, decide_eq_true_eq]

/-- Claim C2: an input series with fewer bars than the largest rolling
window (50) is rejected before any scoring with the distinguishable
insufficient-data result (`none`); and that early return is the only
caller-visible failure — any series long enough to pass the length guard
(the code's guard is `len(data) < 100`) always produces a result. -/
theorem C2_insufficient_history (bars : List Bar) :
    (bars.length < 50 → run_usdjpy_analysis (some bars) = none) ∧
    (100 ≤ bars.length → (run_usdjpy_analysis (some bars)).isSome = true) := by
  constructor
  · intro h
    simp only [run_usdjpy_analysis]
    rw [if_pos (by omega)]
  · intro h
    simp only [run_usdjpy_analysis]
    rw [if_neg (by omega)]
    rfl

/-- Witness for C2 on the empty bar series. -/
theorem C2_insufficient_history_witness :
    ([] : List Bar).length < 50 ∧ run_usdjpy_analysis (some ([] : List Bar)) = none :=
  ⟨by simp, (C2_insufficient_history []).1 (by simp)⟩

/-- Claim C9: at any row whose position flips from −1.0 to +1.0 in one
bar, the transaction cost charged at that row is exactly
`2 × spread_cost` (`|(+1) − (−1)| × 0.002`). -/
theorem C9_full_flip_cost (rows : List SignalRow) {t : ℕ} (ht : 1 ≤ t)
    (hlen : t < rows.length)
    (hprev : (rows.getD (t - 1) default).Position = -1)
    (hcur : (rows.getD t default).Position = 1) :
    trade_cost_at rows t = .fin (2 * fx_params.spread_cost) := by
  rw [trade_cost_at, position_diff_at, if_neg (by omega), hprev, hcur,
    PVal.abs_fin, PVal.mul_fin]
  congr 1
  norm_num

/-- Witness for C9 on a two-row list flipping from short to long. -/
theorem C9_full_flip_cost_witness :
    (1 ≤ 1) ∧
    1 < ([⟨150, -1, -1, 1, "", ""⟩, ⟨150, 1, 1, 1, "", ""⟩] : List SignalRow).length ∧
    (([⟨150, -1, -1, 1, "", ""⟩, ⟨150, 1, 1, 1, "", ""⟩] : List SignalRow).getD 0
      default).Position = -1 ∧
    (([⟨150, -1, -1, 1, "", ""⟩, ⟨150, 1, 1, 1, "", ""⟩] : List SignalRow).getD 1
      default).Position = 1 ∧
    trade_cost_at ([⟨150, -1, -1, 1, "", ""⟩, ⟨150, 1, 1, 1, "", ""⟩] : List SignalRow) 1 =
      .fin (2 * fx_params.spread_cost) :=
  ⟨le_refl 1, by simp, rfl, rfl,
    C9_full_flip_cost _ (le_refl 1) (by simp) rfl rfl⟩

theorem PVal.lt_fin_of_lt {a b : ℚ} (h : a < b) : PVal.lt (.fin a) (.fin b) = true :=
  PVal.lt_fin_iff.2 h

theorem PVal.lt_fin_of_not_lt {a b : ℚ} (h : ¬ a < b) :
    PVal.lt (.fin a) (.fin b) = false := by
  simp [PVal.lt, h]

theorem PVal.le_fin_of_le {a b : ℚ} (h : a ≤ b) : PVal.le (.fin a) (.fin b) = true :=
  PVal.le_fin_iff.2 h

/-- A value strictly above 0.95 (in the NaN-rejecting float order) is not
below 0.05, so the first two branches of the Bollinger chain are mutually
exclusive. -/
theorem PVal.not_lt_low_of_gt_high {v : PVal} (h : PVal.gt v (.fin 0.95) = true) :
    PVal.lt v (.fin 0.05) = false := by
  cases v with
  | nan => simp [PVal.gt, PVal.lt] at h
  | inf => rfl
  | ninf => simp [PVal.gt, PVal.lt] at h
  | fin a =>
    simp only [PVal.gt, PVal.lt, decide_eq_true_eq] at h
    simp only [PVal.lt, decide_eq_false_iff_not]
    intro hlt
    linarith

/-- Claim C1 fails on the code: with RSI 50 (neutral, +0.5) and Bollinger
position 0.03, the mean-reversion score is 2.5 — the `elif` chain awards
only the `< 0.05` bonus (+2), not the additional `< 0.20` bonus the claim
stacks on top (which would give 3.5). -/
theorem C1_counterexample :
    (analyze_fx_mean_reversion mean_reversion_cex_indicators 0).score = 2.5 ∧
    (analyze_fx_mean_reversion mean_reversion_cex_indicators 0).score ≠ 3.5 := by
  have hrun : analyze_fx_mean_reversion mean_reversion_cex_indicators 0 =
      ⟨0.5 + 2, ["rsi_neutral", "bb_extreme_oversold"]⟩ := by
    have e1 : PVal.lt (.fin 50) (.fin 25) = false := PVal.lt_fin_of_not_lt (by norm_num)
    have e2 : PVal.lt (.fin 75) (.fin 50) = false := PVal.lt_fin_of_not_lt (by norm_num)
    have e3 : PVal.le (.fin 40) (.fin 50) = true := PVal.le_fin_of_le (by norm_num)
    have e4 : PVal.le (.fin 50) (.fin 60) = true := PVal.le_fin_of_le (by norm_num)
    have e5 : PVal.lt (.fin 0.03) (.fin 0.05) = true := PVal.lt_fin_of_lt (by norm_num)
    simp only [analyze_fx_mean_reversion, mean_reversion_cex_indicators,
      List.getD_cons_zero, PVal.gt, e1, e2, e3, e4, e5]
    simp
  rw [hrun]
  norm_num

/-- Claim C1 (amended): the Bollinger thresholds of the mean-reversion
sub-score are an `if/elif` chain, hence mutually exclusive: a position
below 0.05 contributes exactly +2 on top of the RSI chain (not +3), and
symmetrically a position above 0.95 contributes exactly −2. -/
theorem C1_amended (indicators : IndicatorSet) (i : ℕ) :
    (PVal.lt (indicators.BB_Position.getD i .nan) (.fin 0.05) = true →
      (analyze_fx_mean_reversion indicators i).score =
        (if PVal.lt (indicators.RSI.getD i .nan) (.fin 25) then 2
         else if PVal.gt (indicators.RSI.getD i .nan) (.fin 75) then -2
         else if PVal.le (.fin 40) (indicators.RSI.getD i .nan) &&
             PVal.le (indicators.RSI.getD i .nan) (.fin 60) then 0.5
         else 0) + 2) ∧
    (PVal.gt (indicators.BB_Position.getD i .nan) (.fin 0.95) = true →
      (analyze_fx_mean_reversion indicators i).score =
        (if PVal.lt (indicators.RSI.getD i .nan) (.fin 25) then 2
         else if PVal.gt (indicators.RSI.getD i .nan) (.fin 75) then -2
         else if PVal.le (.fin 40) (indicators.RSI.getD i .nan) &&
             PVal.le (indicators.RSI.getD i .nan) (.fin 60) then 0.5
         else 0) + -2) := by
  constructor
  · intro hlow
    simp only [analyze_fx_mean_reversion, hlow, if_true]
    rw [apply_ite SubScore.score, apply_ite SubScore.score, apply_ite SubScore.score]
  · intro hhigh
    have hlow := PVal.not_lt_low_of_gt_high hhigh
    simp only [analyze_fx_mean_reversion, hlow, hhigh, if_true, Bool.false_eq_true,
      if_false]
    rw [apply_ite SubScore.score, apply_ite SubScore.score, apply_ite SubScore.score]

/-- Witness for the amended C1: Bollinger position 0.03 and RSI 50 yield
the RSI contribution (+0.5) plus exactly +2. -/
theorem C1_amended_witness :
    PVal.lt (mean_reversion_cex_indicators.BB_Position.getD 0 .nan) (.fin 0.05) = true ∧
    (analyze_fx_mean_reversion mean_reversion_cex_indicators 0).score =
      (if PVal.lt (mean_reversion_cex_indicators.RSI.getD 0 .nan) (.fin 25) then 2
       else if PVal.gt (mean_reversion_cex_indicators.RSI.getD 0 .nan) (.fin 75) then -2
       else if PVal.le (.fin 40) (mean_reversion_cex_indicators.RSI.getD 0 .nan) &&
           PVal.le (mean_reversion_cex_indicators.RSI.getD 0 .nan) (.fin 60) then 0.5
       else 0) + 2 := by
  have hlow : PVal.lt (mean_reversion_cex_indicators.BB_Position.getD 0 .nan)
      (.fin 0.05) = true := by
    rw [show mean_reversion_cex_indicators.BB_Position.getD 0 .nan = .fin 0.03 from rfl]
    exact PVal.lt_fin_of_lt (by norm_num)
  exact ⟨hlow, (C1_amended mean_reversion_cex_indicators 0).1 hlow⟩

/-- Claim C4 fails on the code: at bar 50 of the flat 60-bar series the
Bollinger width is 0 and `BB_Position = (close - lower) / width` is the
NaN of `0/0`, not the neutral 0.5 the claim says is substituted (the
source has no such guard). -/
theorem C4_counterexample :
    (calculate_fx_optimized_indicators flat_bars_60).BB_Width.getD 50 .nan = .fin 0 ∧
    (calculate_fx_optimized_indicators flat_bars_60).BB_Position.getD 50 .nan = .nan ∧
    (calculate_fx_optimized_indicators flat_bars_60).BB_Position.getD 50 .nan ≠
      .fin 0.5 := by
  have hflat : FlatBars 150 flat_bars_60 := flatBars_replicate_150 60
  have hlen : (50 : ℕ) < flat_bars_60.length := by simp [flat_bars_60]
  have h2 : (calculate_fx_optimized_indicators flat_bars_60).BB_Position.getD 50 .nan
      = .nan := by
    rw [ind_BB_Position]
    exact flat_BB_Position_getD hflat (by norm_num) hlen
  refine ⟨?_, h2, by rw [h2]; simp⟩
  rw [ind_BB_Width]
  exact flat_BB_Width_getD hflat (by norm_num) hlen

/-- Claim C4 (amended): on a flat price run the Bollinger width is zero
and the engine computes `BB_Position = 0/0 = NaN` with no substitution;
the NaN is propagated into scoring, where every Bollinger threshold
comparison with NaN is false, so the mean-reversion sub-score gets no
contribution (and no division fault is raised) — but no neutral 0.5 is
ever substituted. -/
theorem C4_amended {c : ℚ} {bars : List Bar} (h : FlatBars c bars) {i : ℕ}
    (h14 : 14 ≤ i) (hi : i < bars.length) :
    (calculate_fx_optimized_indicators bars).BB_Width.getD i .nan = .fin 0 ∧
    (calculate_fx_optimized_indicators bars).BB_Position.getD i .nan = .nan ∧
    analyze_fx_mean_reversion (calculate_fx_optimized_indicators bars) i = ⟨0, []⟩ := by
  refine ⟨?_, ?_, flat_analyze_mean_reversion h h14 hi⟩
  · rw [ind_BB_Width]
    exact flat_BB_Width_getD h h14 hi
  · rw [ind_BB_Position]
    exact flat_BB_Position_getD h h14 hi

/-- Witness for the amended C4 on 15 flat bars at index 14. -/
theorem C4_amended_witness :
    FlatBars 150 (List.replicate 15 flat_bar_150) ∧
    14 < (List.replicate 15 flat_bar_150).length ∧
    (calculate_fx_optimized_indicators (List.replicate 15 flat_bar_150)).BB_Position.getD
      14 .nan = .nan :=
  ⟨flatBars_replicate_150 15, by simp,
    (C4_amended (flatBars_replicate_150 15) (le_refl 14) (by simp)).2.1⟩

theorem flat60_row (t : ℕ) (ht : t < 60) :
    ((generate_fx_signals flat_bars_60
      (calculate_fx_optimized_indicators flat_bars_60)).getD t default).Position = 0 ∧
    ((generate_fx_signals flat_bars_60
      (calculate_fx_optimized_indicators flat_bars_60)).getD t default).Price = 150 := by
  have hflat : FlatBars 150 flat_bars_60 := flatBars_replicate_150 60
  have hlen : t < flat_bars_60.length := by
    simp only [flat_bars_60, List.length_replicate]
    omega
  have hbar : flat_bars_60.getD t default = flat_bar_150 := by
    rw [show flat_bars_60 = List.replicate 60 flat_bar_150 from rfl]
    exact getD_replicate_lt ht _ _
  by_cases h50 : t < 50
  · rw [generate_fx_signals_getD_lt _ _ h50 hlen]
    refine ⟨rfl, ?_⟩
    show (flat_bars_60.getD t default).close = 150
    rw [hbar]
    rfl
  · rw [flat_signal_row hflat (by norm_num) (by omega) hlen]
    exact ⟨rfl, rfl⟩

theorem net_at_flat60 {rows : List SignalRow} (hlen : rows.length = 60)
    (hval : ∀ t, t < 60 → (rows.getD t default).Position = 0 ∧
      (rows.getD t default).Price = 150) :
    ∀ t, t < 60 → net_at rows t = if t = 0 then PVal.nan else .fin 0 := by
  intro t ht
  by_cases h0 : t = 0
  · subst h0
    rw [if_pos rfl, net_at, gross_at, if_pos rfl, trade_cost_at, position_diff_at,
      if_pos (Or.inl rfl), PVal.abs_nan, PVal.nan_mul, PVal.nan_sub]
  · have hr : returns_at rows t = .fin (150 / 150 - 1) := by
      rw [returns_at, if_neg (by rw [hlen]; omega), (hval t ht).2,
        (hval (t - 1) (by omega)).2, PVal.div_fin _ (by norm_num), PVal.sub_fin]
    have hg : gross_at rows t = .fin (0 * (150 / 150 - 1)) := by
      rw [gross_at, if_neg h0, hr, (hval (t - 1) (by omega)).1, PVal.mul_fin]
    have hcst : trade_cost_at rows t =
        .fin (|0 - 0| * fx_params.spread_cost) := by
      rw [trade_cost_at, position_diff_at, if_neg (by rw [hlen]; omega),
        (hval t ht).1, (hval (t - 1) (by omega)).1, PVal.abs_fin, PVal.mul_fin]
    rw [if_neg h0, net_at, hg, hcst, PVal.sub_fin]
    congr 1
    norm_num

/-- Claim C3: on the spec's 60 flat bars at 150.00 the engine does report
zero trades (`Total_Trades = 0`) and `Win_Rate = 0`, but `Profit_Factor`
is `float('inf')`, not the claimed 0: the NaN net return of row 0 passes
the `Net != 0` activity filter (pandas' `NaN != 0` is `True`), so the
empty-metrics path that would report 0 is skipped, and with no losing
rows the `float('inf')` branch is taken. -/
theorem C3_flat60_performance :
    (calculate_fx_performance (generate_fx_signals flat_bars_60
      (calculate_fx_optimized_indicators flat_bars_60))).Total_Trades = 0 ∧
    (calculate_fx_performance (generate_fx_signals flat_bars_60
      (calculate_fx_optimized_indicators flat_bars_60))).Win_Rate = 0 ∧
    (calculate_fx_performance (generate_fx_signals flat_bars_60
      (calculate_fx_optimized_indicators flat_bars_60))).Profit_Factor = .inf ∧
    (calculate_fx_performance (generate_fx_signals flat_bars_60
      (calculate_fx_optimized_indicators flat_bars_60))).Profit_Factor ≠ .fin 0 := by
  set rows := generate_fx_signals flat_bars_60
    (calculate_fx_optimized_indicators flat_bars_60) with hrows
  have hlen : rows.length = 60 := by
    rw [hrows, generate_fx_signals, List.length_map, List.length_range, flat_bars_60,
      List.length_replicate]
  have hval : ∀ t, t < 60 → (rows.getD t default).Position = 0 ∧
      (rows.getD t default).Price = 150 := fun t ht => flat60_row t ht
  have hnet := net_at_flat60 hlen hval
  have hnl : net_list rows =
      (List.range 60).map (fun t => if t = 0 then PVal.nan else .fin 0) := by
    rw [net_list, hlen]
    exact List.map_congr_left (fun t ht => hnet t (List.mem_range.1 ht))
  have hfil : ((List.range 60).map
      (fun t : ℕ => if t = 0 then PVal.nan else PVal.fin 0)).filter pval_ne_zero
      = [PVal.nan] := by decide
  have hwin : ([PVal.nan].filter (fun v => PVal.gt v (.fin 0))) = [] := rfl
  have hlose : ([PVal.nan].filter (fun v => PVal.lt v (.fin 0))) = [] := rfl
  have hdiff : ∀ t, t < 60 →
      (PVal.gt (PVal.abs (position_diff_at rows t)) (.fin 0)) = false := by
    intro t ht
    by_cases h0 : t = 0
    · subst h0
      rw [position_diff_at, if_pos (Or.inl rfl), PVal.abs_nan]
      rfl
    · rw [position_diff_at, if_neg (by rw [hlen]; omega), (hval t ht).1,
        (hval (t - 1) (by omega)).1, PVal.abs_fin]
      show PVal.lt (.fin 0) (.fin |0 - 0|) = false
      rw [PVal.lt_fin_of_not_lt (by norm_num)]
  simp only [calculate_fx_performance, hnl, hfil]
  rw [if_neg (show ¬ ([PVal.nan].length = 0) by simp)]
  simp only [hwin, hlose, hlen]
  have hfilter0 : ((List.range 60).filter (fun t =>
      PVal.gt (PVal.abs (position_diff_at rows t)) (.fin 0))).length = 0 := by
    rw [List.filter_congr (fun t ht => hdiff t (List.mem_range.1 ht)),
      List.filter_false, List.length_nil]
  refine ⟨hfilter0, by norm_num, by norm_num, by simp⟩
